import Mathlib

/-!
# Verification of the scalp-signal engine of `bot.py`

Shallow embedding of the signal-evaluation core of the repository:
the `scalp_analyze` pipeline (pre-checks, indicator voting, direction
decision, filters, trade levels, bookkeeping) and the `run_scan`
orchestration (daily reset, cooldown pruning, per-coin analysis,
sorting and truncation), together with the accepted-signal bookkeeping
of `background_scanner`.

Modelling conventions:
* Python floats are modelled by `ℚ`; every numeric operation of the
  embedded code is exact order arithmetic, no rounding is relied on.
* Provider data (`tradingview_ta` analysis objects) is a record of
  `Option ℚ` indicator fields; the source reads each one with
  `dict.get(key, default)`, which the embedding mirrors with
  `Option.getD` in `extractInd`.
* Python truthiness `if x:` on a number is `x ≠ 0`.
* The human-readable reason strings appended to the `signals` list are
  abstracted to the inductive `Tag`, one constructor per `append` site
  in the source; count and order are preserved, interpolated numbers
  are not.
* Wall-clock values (`time.time()`, `datetime.utcnow().hour/.minute`)
  are passed in explicitly through `Env`; within one scan cycle they
  are treated as constant, matching the single `now` the source takes
  at the start of `run_scan` / `scalp_analyze`.
* The module-level globals `BTC_RSI`, `BTC_TREND`, `SIGNALS_TODAY`,
  `RECENT_SIGNALS`, `ACTIVE_CATEGORY_COUNT` become `Env` (read-only
  within a cycle) and `ScanState` (mutated by the cycle).
* The sqlite persistence and Telegram delivery are external
  collaborators; only the counter/cooldown bookkeeping that accompanies
  them is modelled.
* The symbol universe `COINS` is abstracted: `runScan` takes the list
  of per-coin fetched data (symbol plus the three timeframe fetches).
-/

/-! ## Configuration constants (`bot.py` lines 87-127) -/

def MAX_SIGNALS_PER_SCAN : ℕ := 3

def MAX_SIGNALS_DAY : ℕ := 15

def MIN_SCORE : ℕ := 75

def DUPLICATE_COOLDOWN : ℚ := 300

def ATR_SL : ℚ := 0.6

def ATR_TP1 : ℚ := 0.8

def ATR_TP2 : ℚ := 1.5

def ATR_TP3 : ℚ := 2.5

def PCT_SL : ℚ := 0.5

def PCT_TP1 : ℚ := 0.6

def PCT_TP2 : ℚ := 1.2

def PCT_TP3 : ℚ := 2.0

def DANGEROUS_HOURS : List ℕ := [0, 8]

/-- The `WEIGHTS` dict of `bot.py` lines 114-124. -/
def WEIGHTS : List (String × ℕ) :=
  [("rsi_momentum", 20),
   ("macd_cross", 20),
   ("stochastic", 15),
   ("ema_cross", 15),
   ("momentum", 5),
   ("tf_alignment", 15),
   ("tf_15m_bonus", 10),
   ("adx_bonus", 5),
   ("btc_alignment", 5)]

/-- `WEIGHTS[k]` lookup (written as a pattern match so that it unfolds
by its equations; `weight_eq_lookup` below ties it to the `WEIGHTS`
table). -/
def weight : String → ℕ
  | "rsi_momentum" => 20
  | "macd_cross" => 20
  | "stochastic" => 15
  | "ema_cross" => 15
  | "momentum" => 5
  | "tf_alignment" => 15
  | "tf_15m_bonus" => 10
  | "adx_bonus" => 5
  | "btc_alignment" => 5
  | _ => 0

/-- The `COIN_CATEGORIES` dict of `bot.py` lines 79-85 (insertion order kept). -/
def COIN_CATEGORIES : List (String × List String) :=
  [("meme", ["DOGE", "PEPE", "BONK", "SHIB", "WIF", "TRUMP"]),
   ("l1", ["SOL", "AVAX", "APT", "NEAR", "SUI", "SEI", "TON"]),
   ("l2", ["OP", "ARB", "MNT", "ZK"]),
   ("defi", ["AAVE", "UNI", "CRV", "LDO", "PENDLE", "JUP"]),
   ("ai", ["TAO", "WLD", "GRASS"])]

/-! ## Basic types -/

/-- Signal direction (`"LONG"` / `"SHORT"`). -/
inductive Dir where
  | long : Dir
  | short : Dir
deriving DecidableEq

/-- Which running total a voter adds to. -/
inductive Side where
  | bull : Side
  | bear : Side
deriving DecidableEq

/-- The global BTC trend (`"BULLISH"` / `"BEARISH"` / `"NEUTRAL"`). -/
inductive Trend where
  | bullish : Trend
  | bearish : Trend
  | neutral : Trend
deriving DecidableEq

/-- A TradingView summary recommendation string. -/
inductive Rec where
  | strongBuy : Rec
  | buy : Rec
  | neutral : Rec
  | sell : Rec
  | strongSell : Rec
deriving DecidableEq

/-- `rec in ['STRONG_BUY', 'BUY']`. -/
def isBuyRec (r : Rec) : Prop := r = Rec.strongBuy ∨ r = Rec.buy

/-- `rec in ['STRONG_SELL', 'SELL']`. -/
def isSellRec (r : Rec) : Prop := r = Rec.strongSell ∨ r = Rec.sell

instance (r : Rec) : Decidable (isBuyRec r) := by unfold isBuyRec; infer_instance

instance (r : Rec) : Decidable (isSellRec r) := by unfold isSellRec; infer_instance

/-- Market session label from `get_market_session` (lines 360-370). -/
inductive Session where
  | asia : Session
  | london : Session
  | ny : Session
deriving DecidableEq

def marketSession (hour : ℕ) : Session :=
  if hour < 8 then Session.asia
  else if hour < 13 then Session.london
  else if hour < 21 then Session.ny
  else Session.asia

/-- `is_dangerous_hour` (lines 356-358). -/
def isDangerousHour (hour : ℕ) : Bool := DANGEROUS_HOURS.contains hour

/-- One `signals.append(...)` site of `scalp_analyze`; the formatted
reason strings are abstracted to these tags. -/
inductive Tag where
  | rsiUp | rsiDown | rsiHigh | rsiLow
  | macdUp | macdDown
  | stochBull | stochBear
  | emaBull | emaBear
  | momPos | momNeg
  | tfUp | tfDown
  | m15Up | m15Down | m15Bypass
  | adxStrong
  | btcUp | btcDown
deriving DecidableEq

/-- One weighted addition to a running total (`bull += w` / `bear += w`). -/
abbrev Contrib := Side × ℕ

/-- Outcome of one voting block of `scalp_analyze`: either a hard veto
(`return None` inside the block) or a normal continuation carrying the
optional weighted contribution and the optional appended reason tag. -/
inductive StageRes where
  | veto : StageRes
  | ok : Option Contrib → Option Tag → StageRes
deriving DecidableEq

/-- Weight that an optional contribution adds to the given side. -/
def sideW (sd : Side) (o : Option Contrib) : ℕ :=
  match o with
  | some (s, w) => if s = sd then w else 0
  | none => 0

/-- 1 when the optional contribution is a vote for the given side. -/
def sideCnt (sd : Side) (o : Option Contrib) : ℕ :=
  match o with
  | some (s, _) => if s = sd then 1 else 0
  | none => 0

/-- Accumulated weighted total of one side over a contribution list. -/
def sideSum (sd : Side) (cs : List (Option Contrib)) : ℕ :=
  (cs.map (sideW sd)).sum

/-- Number of non-abstaining voters agreeing with the given side
(the confluence count of the spec). -/
def confluence (sd : Side) (cs : List (Option Contrib)) : ℕ :=
  (cs.map (sideCnt sd)).sum

/-! ## Provider data and indicator extraction (`bot.py` lines 440-474) -/

/-- One TradingView analysis result: the summary recommendation and the
indicator dictionary (absent keys are `none`). -/
structure TVData where
  recommend : Rec
  close : Option ℚ
  high : Option ℚ
  low : Option ℚ
  opn : Option ℚ
  rsi : Option ℚ
  macdLine : Option ℚ
  macdSignal : Option ℚ
  stochK : Option ℚ
  stochD : Option ℚ
  ema9 : Option ℚ
  ema10 : Option ℚ
  ema21 : Option ℚ
  ema20 : Option ℚ
  atr : Option ℚ
  mom : Option ℚ
  ao : Option ℚ
  adx : Option ℚ
  volume : Option ℚ
deriving DecidableEq

/-- The scalar values `scalp_analyze` works with after the
`ind.get(key, default)` extraction block (lines 443-474). -/
structure Ind where
  close : ℚ
  high : ℚ
  low : ℚ
  opn : ℚ
  rsi : ℚ
  rsi1m : ℚ
  macd : ℚ
  macdSig : ℚ
  stochK : ℚ
  stochD : ℚ
  ema9 : ℚ
  ema21 : ℚ
  atr : ℚ
  mom : ℚ
  ao : ℚ
  adx : ℚ
  volume : ℚ
  rec1m : Rec
  rec5m : Rec
  rec15m : Rec
deriving DecidableEq

/-- Extraction with the source's defaults: `close/high/low/open` default 0,
`RSI` defaults 50 (both timeframes), `MACD` 0, `Stoch` 50, `EMA9/EMA21`
fall back to `EMA10/EMA20` then 0, `ATR`/`Mom`/`AO` 0, `ADX` 20;
`rec_15m` is `'NEUTRAL'` when the 15m fetch failed. -/
def extractInd (d1 d5 : TVData) (t15 : Option TVData) : Ind :=
  { close := d5.close.getD 0
    high := d5.high.getD 0
    low := d5.low.getD 0
    opn := d5.opn.getD 0
    rsi := d5.rsi.getD 50
    rsi1m := d1.rsi.getD 50
    macd := d5.macdLine.getD 0
    macdSig := d5.macdSignal.getD 0
    stochK := d5.stochK.getD 50
    stochD := d5.stochD.getD 50
    ema9 := match d5.ema9 with
      | some x => x
      | none => d5.ema10.getD 0
    ema21 := match d5.ema21 with
      | some x => x
      | none => d5.ema20.getD 0
    atr := d5.atr.getD 0
    mom := d5.mom.getD 0
    ao := d5.ao.getD 0
    adx := d5.adx.getD 20
    volume := d5.volume.getD 0
    rec1m := d1.recommend
    rec5m := d5.recommend
    rec15m := match t15 with
      | some d => d.recommend
      | none => Rec.neutral }

/-! ## The nine voting blocks (`bot.py` lines 476-594) -/

/-- Block 1, RSI momentum (lines 482-500).  Veto when RSI is in the
extreme zone, but only when both `rsi` and `rsi_1m` are truthy. -/
def rsiVote (rsi rsi1m : ℚ) : StageRes :=
  if rsi ≠ 0 ∧ rsi1m ≠ 0 then
    let rsiMom := rsi1m - rsi
    if 40 ≤ rsi ∧ rsi ≤ 60 then
      if 2 < rsiMom then StageRes.ok (some (Side.bull, weight "rsi_momentum")) (some Tag.rsiUp)
      else if rsiMom < -2 then StageRes.ok (some (Side.bear, weight "rsi_momentum")) (some Tag.rsiDown)
      else StageRes.ok none none
    else if 70 < rsi ∨ rsi < 30 then StageRes.veto
    else if 60 < rsi ∧ rsi ≤ 70 ∧ 0 < rsiMom then StageRes.ok (some (Side.bull, 10)) (some Tag.rsiHigh)
    else if 30 ≤ rsi ∧ rsi < 40 ∧ rsiMom < 0 then StageRes.ok (some (Side.bear, 10)) (some Tag.rsiLow)
    else StageRes.ok none none
  else StageRes.ok none none

/-- Block 2, MACD fresh cross (lines 502-516).  After extraction `macd`
and `macd_sig` are never `None`, so the guard of the source is always
entered. -/
def macdVote (macd macdSig : ℚ) : Option Contrib × Option Tag :=
  let hist := macd - macdSig
  let strength := if macd ≠ 0 then |macd| * 0.3 else 0.001
  if 0 < hist ∧ hist < strength then (some (Side.bull, weight "macd_cross"), some Tag.macdUp)
  else if -strength < hist ∧ hist < 0 then (some (Side.bear, weight "macd_cross"), some Tag.macdDown)
  else if strength < hist then (some (Side.bull, 5), none)
  else if hist < -strength then (some (Side.bear, 5), none)
  else (none, none)

/-- Block 3, Stochastic (lines 518-528).  Veto in the extreme zone, only
when both values are truthy. -/
def stochVote (k d : ℚ) : StageRes :=
  if k ≠ 0 ∧ d ≠ 0 then
    if 80 < k ∨ k < 20 then StageRes.veto
    else if d < k ∧ 30 < k ∧ k < 70 then StageRes.ok (some (Side.bull, weight "stochastic")) (some Tag.stochBull)
    else if k < d ∧ 30 < k ∧ k < 70 then StageRes.ok (some (Side.bear, weight "stochastic")) (some Tag.stochBear)
    else StageRes.ok none none
  else StageRes.ok none none

/-- Block 4, EMA9/21 cross (lines 530-543). -/
def emaVote (ema9 ema21 close : ℚ) : Option Contrib × Option Tag :=
  if ema9 ≠ 0 ∧ ema21 ≠ 0 ∧ close ≠ 0 then
    let diff := if ema21 ≠ 0 then (ema9 - ema21) / ema21 * 100 else 0
    if 0 < diff ∧ diff < 0.2 then (some (Side.bull, weight "ema_cross"), some Tag.emaBull)
    else if -0.2 < diff ∧ diff < 0 then (some (Side.bear, weight "ema_cross"), some Tag.emaBear)
    else if 0.5 < diff then (some (Side.bull, 5), none)
    else if diff < -0.5 then (some (Side.bear, 5), none)
    else (none, none)
  else (none, none)

/-- Block 5, momentum / AO agreement (lines 545-552). -/
def momVote (mom ao : ℚ) : Option Contrib × Option Tag :=
  if mom ≠ 0 ∧ ao ≠ 0 then
    if 0 < mom ∧ 0 < ao then (some (Side.bull, weight "momentum"), some Tag.momPos)
    else if mom < 0 ∧ ao < 0 then (some (Side.bear, weight "momentum"), some Tag.momNeg)
    else (none, none)
  else (none, none)

/-- Block 6, 1m/5m timeframe alignment (lines 554-564).  Misaligned
recommendations are a hard veto; an aligned pair only adds weight to the
side that is already strictly ahead. -/
def tfVote (rec1 rec5 : Rec) (bull bear : ℕ) : StageRes :=
  if isBuyRec rec1 ∧ isBuyRec rec5 then
    if bear < bull then StageRes.ok (some (Side.bull, weight "tf_alignment")) (some Tag.tfUp)
    else StageRes.ok none none
  else if isSellRec rec1 ∧ isSellRec rec5 then
    if bull < bear then StageRes.ok (some (Side.bear, weight "tf_alignment")) (some Tag.tfDown)
    else StageRes.ok none none
  else StageRes.veto

/-- Block 7, 15m bonus (lines 566-578).  When the 15m recommendation does
not agree with the leading side, only a preliminary score of at least 85
bypasses the veto. -/
def m15Vote (rec15 : Rec) (bull bear : ℕ) : StageRes :=
  let prelim := max bull bear
  if isBuyRec rec15 ∧ bear < bull then StageRes.ok (some (Side.bull, weight "tf_15m_bonus")) (some Tag.m15Up)
  else if isSellRec rec15 ∧ bull < bear then StageRes.ok (some (Side.bear, weight "tf_15m_bonus")) (some Tag.m15Down)
  else if 85 ≤ prelim then StageRes.ok none (some Tag.m15Bypass)
  else StageRes.veto

/-- Block 8, ADX bonus (lines 580-586): with `adx` truthy and above 25
the bonus goes to the leading side (to `bear` on a tie). -/
def adxVote (adx : ℚ) (bull bear : ℕ) : Option Contrib × Option Tag :=
  if adx ≠ 0 ∧ 25 < adx then
    if bear < bull then (some (Side.bull, weight "adx_bonus"), some Tag.adxStrong)
    else (some (Side.bear, weight "adx_bonus"), some Tag.adxStrong)
  else (none, none)

/-- Block 9, BTC trend alignment bonus (lines 588-594). -/
def btcVote (t : Trend) (bull bear : ℕ) : Option Contrib × Option Tag :=
  if bear < bull ∧ t = Trend.bullish then (some (Side.bull, weight "btc_alignment"), some Tag.btcUp)
  else if bull < bear ∧ t = Trend.bearish then (some (Side.bear, weight "btc_alignment"), some Tag.btcDown)
  else (none, none)

/-- Blocks 1-5: the pure indicator voters, with the RSI and Stochastic
extreme-zone vetoes.  Returns the five optional contributions (in block
order) and the appended tags, or `none` on a veto. -/
def votes15 (e : Ind) : Option (List (Option Contrib) × List Tag) :=
  match rsiVote e.rsi e.rsi1m with
  | StageRes.veto => none
  | StageRes.ok o1 t1 =>
    let p2 := macdVote e.macd e.macdSig
    match stochVote e.stochK e.stochD with
    | StageRes.veto => none
    | StageRes.ok o3 t3 =>
      let p4 := emaVote e.ema9 e.ema21 e.close
      let p5 := momVote e.mom e.ao
      some ([o1, p2.1, o3, p4.1, p5.1],
            (t1.toList ++ p2.2.toList ++ t3.toList ++ p4.2.toList ++ p5.2.toList))

/-- The whole scoring section of `scalp_analyze` (lines 476-594):
blocks 1-5 followed by the context blocks 6-9, which read the running
totals.  Returns the nine optional contributions in block order plus the
reason tags, or `none` when any veto fired. -/
def scoringVotes (e : Ind) (btcTrend : Trend) : Option (List (Option Contrib) × List Tag) :=
  match votes15 e with
  | none => none
  | some (cs, ts) =>
    let b5 := sideSum Side.bull cs
    let r5 := sideSum Side.bear cs
    match tfVote e.rec1m e.rec5m b5 r5 with
    | StageRes.veto => none
    | StageRes.ok o6 t6 =>
      let b6 := b5 + sideW Side.bull o6
      let r6 := r5 + sideW Side.bear o6
      match m15Vote e.rec15m b6 r6 with
      | StageRes.veto => none
      | StageRes.ok o7 t7 =>
        let b7 := b6 + sideW Side.bull o7
        let r7 := r6 + sideW Side.bear o7
        let p8 := adxVote e.adx b7 r7
        let b8 := b7 + sideW Side.bull p8.1
        let r8 := r7 + sideW Side.bear p8.1
        let p9 := btcVote btcTrend b8 r8
        some (cs ++ [o6, o7, p8.1, p9.1],
              ts ++ t6.toList ++ t7.toList ++ p8.2.toList ++ p9.2.toList)

/-- Direction and score decision (lines 596-605). -/
def decideDirection (bull bear : ℕ) : Option (Dir × ℕ) :=
  if 65 ≤ bull ∧ bear < bull then some (Dir.long, min bull 100)
  else if 65 ≤ bear ∧ bull < bear then some (Dir.short, min bear 100)
  else none

/-! ## Post-decision filters (`bot.py` lines 607-645) -/

/-- BTC RSI filter (lines 609-612). -/
def btcRsiVeto (dir : Dir) (btcRsi : ℚ) : Prop :=
  (dir = Dir.long ∧ btcRsi < 45) ∨ (dir = Dir.short ∧ 55 < btcRsi)

instance (dir : Dir) (btcRsi : ℚ) : Decidable (btcRsiVeto dir btcRsi) := by
  unfold btcRsiVeto; infer_instance

/-- BTC trend filter (lines 615-623): only signals scoring 90 or more
bypass an opposing BTC trend. -/
def btcTrendVeto (dir : Dir) (t : Trend) (score : ℕ) : Prop :=
  (dir = Dir.long ∧ t = Trend.bearish ∧ score < 90) ∨
    (dir = Dir.short ∧ t = Trend.bullish ∧ score < 90)

instance (dir : Dir) (t : Trend) (score : ℕ) : Decidable (btcTrendVeto dir t score) := by
  unfold btcTrendVeto; infer_instance

/-- The candle body/range ratio of lines 627-629 (`high > low` guards the
0.0001 fallback denominator). -/
def bodyRatio (e : Ind) : ℚ :=
  |e.close - e.opn| / (if e.low < e.high then e.high - e.low else 0.0001)

/-- Fake-breakout filter (lines 625-641): doji candles and
close-near-extreme candles are rejected when the score is below 85; the
whole block is skipped unless `high`, `low`, `close` and `open` are all
truthy. -/
def fakeBreakoutVeto (dir : Dir) (score : ℕ) (e : Ind) : Prop :=
  (e.high ≠ 0 ∧ e.low ≠ 0 ∧ e.close ≠ 0 ∧ e.opn ≠ 0) ∧
    ((bodyRatio e < 0.3 ∧ score < 85) ∨
      (dir = Dir.long ∧ e.high * 0.998 ≤ e.close ∧ bodyRatio e < 0.5 ∧ score < 85) ∨
      (dir = Dir.short ∧ e.close ≤ e.low * 1.002 ∧ bodyRatio e < 0.5 ∧ score < 85))

instance (dir : Dir) (score : ℕ) (e : Ind) : Decidable (fakeBreakoutVeto dir score e) := by
  unfold fakeBreakoutVeto; infer_instance

/-! ## Trade levels (`bot.py` lines 647-686) -/

structure Levels where
  entry : ℚ
  sl : ℚ
  tp1 : ℚ
  tp2 : ℚ
  tp3 : ℚ
  slPct : ℚ
  tp1Pct : ℚ
  tp2Pct : ℚ
  tp3Pct : ℚ
  rr1 : ℚ
  rr2 : ℚ
  rr3 : ℚ
deriving DecidableEq

/-- Entry/stop/target computation: ATR multiples when `atr` is truthy and
positive, fixed percentage offsets otherwise; percentages and
risk/reward ratios as in lines 676-686. -/
def calcLevels (dir : Dir) (close atr : ℚ) : Levels :=
  let lv :=
    if atr ≠ 0 ∧ 0 < atr then
      match dir with
      | Dir.long => (close, close - atr * ATR_SL, close + atr * ATR_TP1,
                     close + atr * ATR_TP2, close + atr * ATR_TP3)
      | Dir.short => (close, close + atr * ATR_SL, close - atr * ATR_TP1,
                      close - atr * ATR_TP2, close - atr * ATR_TP3)
    else
      match dir with
      | Dir.long => (close, close * (1 - PCT_SL / 100), close * (1 + PCT_TP1 / 100),
                     close * (1 + PCT_TP2 / 100), close * (1 + PCT_TP3 / 100))
      | Dir.short => (close, close * (1 + PCT_SL / 100), close * (1 - PCT_TP1 / 100),
                      close * (1 - PCT_TP2 / 100), close * (1 - PCT_TP3 / 100))
  let entry := lv.1
  let sl := lv.2.1
  let tp1 := lv.2.2.1
  let tp2 := lv.2.2.2.1
  let tp3 := lv.2.2.2.2
  let risk := |entry - sl|
  { entry := entry
    sl := sl
    tp1 := tp1
    tp2 := tp2
    tp3 := tp3
    slPct := |entry - sl| / entry * 100
    tp1Pct := |tp1 - entry| / entry * 100
    tp2Pct := |tp2 - entry| / entry * 100
    tp3Pct := |tp3 - entry| / entry * 100
    rr1 := if 0 < risk then |tp1 - entry| / risk else 1
    rr2 := if 0 < risk then |tp2 - entry| / risk else 1
    rr3 := if 0 < risk then |tp3 - entry| / risk else 1 }

/-! ## Global state, helpers, and the analyzer -/

/-- One `RECENT_SIGNALS[symbol]` entry. -/
structure RecentEntry where
  dir : Dir
  time : ℚ
deriving DecidableEq

/-- Read-only context of one scan cycle: the BTC globals, the UTC clock
and `time.time()`. -/
structure Env where
  btcRsi : ℚ
  btcTrend : Trend
  hour : ℕ
  minute : ℕ
  now : ℚ

/-- The mutable globals touched by a scan cycle. -/
structure ScanState where
  signalsToday : ℕ
  recent : String → Option RecentEntry
  catCount : String → ℕ

/-- `get_coin_category` (lines 372-377): first category whose list
contains the symbol. -/
def getCoinCategory (symbol : String) : Option String :=
  (COIN_CATEGORIES.find? (fun p => p.2.contains symbol)).map (fun p => p.1)

/-- `check_category_limit` (lines 379-388). -/
def checkCategoryLimit (st : ScanState) (symbol : String) : Bool :=
  match getCoinCategory symbol with
  | none => true
  | some c => if c = "meme" then decide (st.catCount c < 2) else decide (st.catCount c < 3)

/-- The duplicate check of lines 418-423: a recorded signal for this
symbol younger than `DUPLICATE_COOLDOWN` seconds suppresses analysis. -/
def cooldownActive (env : Env) (st : ScanState) (symbol : String) : Bool :=
  match st.recent symbol with
  | some e => decide (env.now - e.time < DUPLICATE_COOLDOWN)
  | none => false

/-- Bookkeeping on acceptance (lines 688-695): record the cooldown entry
and bump the category counter. -/
def recordSignal (env : Env) (st : ScanState) (symbol : String) (dir : Dir) : ScanState :=
  let recent := fun k => if k = symbol then some { dir := dir, time := env.now } else st.recent k
  let cc :=
    match getCoinCategory symbol with
    | some c => fun k => if k = c then st.catCount k + 1 else st.catCount k
    | none => st.catCount
  { st with recent := recent, catCount := cc }

/-- The emitted signal dict (lines 697-727).  The `timestamp` field
(`datetime.utcnow().isoformat()`) is external wall-clock formatting and
is not modelled. -/
structure Signal where
  symbol : String
  direction : Dir
  score : ℕ
  price : ℚ
  entry : ℚ
  sl : ℚ
  slPct : ℚ
  tp1 : ℚ
  tp1Pct : ℚ
  tp2 : ℚ
  tp2Pct : ℚ
  tp3 : ℚ
  tp3Pct : ℚ
  rr1 : ℚ
  rr2 : ℚ
  rr3 : ℚ
  rsi : ℚ
  stoch : ℚ
  btcRsi : ℚ
  btcTrend : Trend
  atr : ℚ
  adx : ℚ
  rec1m : Rec
  rec5m : Rec
  rec15m : Rec
  session : Session
  signals : List Tag
  category : Option String
deriving DecidableEq

/-- Assembles the returned dict.  `atr if atr else 0` and
`adx if adx else 0` equal the extracted values themselves (a falsy
extracted value is already `0`), so the fields carry `e.atr` / `e.adx`. -/
def mkSignal (env : Env) (symbol : String) (e : Ind) (dir : Dir) (score : ℕ)
    (lv : Levels) (ts : List Tag) : Signal :=
  { symbol := symbol ++ "/USDT"
    direction := dir
    score := score
    price := e.close
    entry := lv.entry
    sl := lv.sl
    slPct := lv.slPct
    tp1 := lv.tp1
    tp1Pct := lv.tp1Pct
    tp2 := lv.tp2
    tp2Pct := lv.tp2Pct
    tp3 := lv.tp3
    tp3Pct := lv.tp3Pct
    rr1 := lv.rr1
    rr2 := lv.rr2
    rr3 := lv.rr3
    rsi := e.rsi
    stoch := e.stochK
    btcRsi := env.btcRsi
    btcTrend := env.btcTrend
    atr := e.atr
    adx := e.adx
    rec1m := e.rec1m
    rec5m := e.rec5m
    rec15m := e.rec15m
    session := marketSession env.hour
    signals := ts
    category := getCoinCategory symbol }

/-- `scalp_analyze` (lines 394-727): pre-checks, data-presence check,
scoring, direction decision, filters, levels, bookkeeping.  The three
timeframe fetches are passed in (`None` models a failed fetch). -/
def scalp_analyze (env : Env) (st : ScanState) (symbol : String)
    (tf1m tf5m tf15m : Option TVData) : Option Signal × ScanState :=
  if MAX_SIGNALS_DAY ≤ st.signalsToday then (none, st)
  else if isDangerousHour env.hour then (none, st)
  else if cooldownActive env st symbol then (none, st)
  else if ¬ checkCategoryLimit st symbol then (none, st)
  else
    match tf1m, tf5m with
    | some d1, some d5 =>
      let e := extractInd d1 d5 tf15m
      if e.close = 0 then (none, st)
      else
        match scoringVotes e env.btcTrend with
        | none => (none, st)
        | some (cs, ts) =>
          match decideDirection (sideSum Side.bull cs) (sideSum Side.bear cs) with
          | none => (none, st)
          | some (dir, score) =>
            if btcRsiVeto dir env.btcRsi then (none, st)
            else if btcTrendVeto dir env.btcTrend score then (none, st)
            else if fakeBreakoutVeto dir score e then (none, st)
            else if score < MIN_SCORE then (none, st)
            else
              (some (mkSignal env symbol e dir score (calcLevels dir e.close e.atr) ts),
               recordSignal env st symbol dir)
    | _, _ => (none, st)

/-! ## The scan orchestration (`bot.py` lines 733-781, 1138-1156) -/

/-- One coin of the scan: the symbol and its three timeframe fetches. -/
structure CoinInput where
  symbol : String
  tf1m : Option TVData
  tf5m : Option TVData
  tf15m : Option TVData

/-- The `RECENT_SIGNALS` pruning of lines 748-752: keep exactly the
entries younger than the cooldown. -/
def pruneRecent (now : ℚ) (r : String → Option RecentEntry) : String → Option RecentEntry :=
  fun k =>
    match r k with
    | some e => if now - e.time < DUPLICATE_COOLDOWN then some e else none
    | none => none

/-- Sequential per-coin analysis of the scan loop (lines 763-771),
threading the shared state and keeping accepted signals in scan order. -/
def scanFold (env : Env) : ScanState → List CoinInput → List Signal × ScanState
  | st, [] => ([], st)
  | st, c :: rest =>
    let p := scalp_analyze env st c.symbol c.tf1m c.tf5m c.tf15m
    let q := scanFold env p.2 rest
    match p.1 with
    | some s => (s :: q.1, q.2)
    | none => (q.1, q.2)

/-- Descending-score order used by `sorted(signals, key=..., reverse=True)`. -/
def scoreDesc (a b : Signal) : Prop := b.score ≤ a.score

instance : DecidableRel scoreDesc := fun a b => Nat.decLe b.score a.score

instance : IsTotal Signal scoreDesc := ⟨fun a b => Nat.le_total b.score a.score⟩

instance : IsTrans Signal scoreDesc := ⟨fun _ _ _ h1 h2 => Nat.le_trans h2 h1⟩

/-- `run_scan` (lines 733-781): daily reset when a scan starts within the
first two minutes after UTC midnight, lazy cooldown pruning, the
dangerous-hour skip, the per-coin loop, and the stable descending sort
followed by the per-scan cap.  (Python's `sorted` is a stable sort, as
is `List.insertionSort`.) -/
def runScan (env : Env) (st : ScanState) (coins : List CoinInput) : List Signal × ScanState :=
  let st1 :=
    if env.hour = 0 ∧ env.minute < 2 then
      { st with signalsToday := 0, catCount := fun _ => 0 }
    else st
  let st2 := { st1 with recent := pruneRecent env.now st1.recent }
  if isDangerousHour env.hour then ([], st2)
  else
    let p := scanFold env st2 coins
    ((List.insertionSort scoreDesc p.1).take MAX_SIGNALS_PER_SCAN, p.2)

/-- One cycle of `background_scanner` (lines 1138-1156) with the admin
chat configured: run the scan, then save each of the (at most
`MAX_SIGNALS_PER_SCAN`) returned signals and increment `SIGNALS_TODAY`
once per saved signal — the increments happen only after the whole scan
has finished. -/
def backgroundCycle (env : Env) (st : ScanState) (coins : List CoinInput) : ScanState :=
  let p := runScan env st coins
  { p.2 with signalsToday := p.2.signalsToday + (p.1.take MAX_SIGNALS_PER_SCAN).length }

/-! ## Veto conditions as named predicates

These name the `return None` conditions of `scalp_analyze` that the
spec calls vetoes; the lemmas below tie them to the voting blocks. -/

/-- The RSI extreme-zone veto condition of block 1 (lines 493-494): it
fires only when both `rsi` and `rsi_1m` are truthy. -/
def rsiVetoCond (rsi rsi1m : ℚ) : Prop :=
  rsi ≠ 0 ∧ rsi1m ≠ 0 ∧ (70 < rsi ∨ rsi < 30)

/-- The Stochastic extreme-zone veto condition of block 3 (lines 520-521). -/
def stochVetoCond (k d : ℚ) : Prop :=
  k ≠ 0 ∧ d ≠ 0 ∧ (80 < k ∨ k < 20)

/-- The 1m/5m recommendation alignment required by block 6 (line 564). -/
def tfAligned (rec1 rec5 : Rec) : Prop :=
  (isBuyRec rec1 ∧ isBuyRec rec5) ∨ (isSellRec rec1 ∧ isSellRec rec5)

/-- Bounds on one optional contribution: every cast vote weighs at least
5 and at most the block's cap. -/
def wSpec (cap : ℕ) (o : Option Contrib) : Prop :=
  ∀ sd w, o = some (sd, w) → 5 ≤ w ∧ w ≤ cap

/-- `wSpec` lifted to a block result. -/
def wSpecR (cap : ℕ) : StageRes → Prop
  | StageRes.veto => True
  | StageRes.ok o _ => wSpec cap o

/-! ## Concrete evaluation inputs

Provider snapshots used to exercise the pipeline on closed inputs. -/

/-- A provider answer with every indicator key absent. -/
def noneTV : TVData :=
  { recommend := Rec.neutral, close := none, high := none, low := none, opn := none,
    rsi := none, macdLine := none, macdSignal := none, stochK := none, stochD := none,
    ema9 := none, ema10 := none, ema21 := none, ema20 := none, atr := none,
    mom := none, ao := none, adx := none, volume := none }

/-- 1m data for scenario A: BUY recommendation, RSI 55. -/
def d1A : TVData := { noneTV with recommend := Rec.buy, rsi := some 55 }

/-- 5m data for scenario A: a clean bullish setup at close 100. -/
def d5A : TVData :=
  { noneTV with
    recommend := Rec.buy
    close := some 100
    high := some 101
    low := some 99
    opn := some 99
    rsi := some 50
    macdLine := some 1
    macdSignal := some 0.9
    stochK := some 60
    stochD := some 50
    atr := some 2 }

/-- 15m data for the concrete scenarios: BUY recommendation. -/
def d15A : TVData := { noneTV with recommend := Rec.buy }

/-- Cycle context for the concrete scenarios: BTC RSI 50, neutral BTC
trend, 10:00 UTC, `time.time()` = 1000. -/
def envA : Env := { btcRsi := 50, btcTrend := Trend.neutral, hour := 10, minute := 0, now := 1000 }

/-- Start state with `n` signals already accepted today and empty
cooldown/category maps. -/
def stN (n : ℕ) : ScanState := { signalsToday := n, recent := fun _ => none, catCount := fun _ => 0 }

/-- Fresh start state. -/
def stA : ScanState := stN 0

/-- Extraction result of scenario A. -/
def indA : Ind :=
  { close := 100, high := 101, low := 99, opn := 99, rsi := 50, rsi1m := 55, macd := 1,
    macdSig := 0.9, stochK := 60, stochD := 50, ema9 := 0, ema21 := 0, atr := 2, mom := 0,
    ao := 0, adx := 20, volume := 0, rec1m := Rec.buy, rec5m := Rec.buy, rec15m := Rec.buy }

/-- Indicator contributions of scenario A, blocks 1-5. -/
def cs5A : List (Option Contrib) :=
  [some (Side.bull, 20), some (Side.bull, 20), some (Side.bull, 15), none, none]

/-- All nine contributions of scenario A. -/
def csA : List (Option Contrib) :=
  cs5A ++ [some (Side.bull, 15), some (Side.bull, 10), none, none]

/-- Reason tags of scenario A. -/
def tsA : List Tag := [Tag.rsiUp, Tag.macdUp, Tag.stochBull, Tag.tfUp, Tag.m15Up]

/-- The signal scenario A produces. -/
def sigA : Signal :=
  { symbol := "ETH/USDT", direction := Dir.long, score := 80, price := 100, entry := 100,
    sl := 98.8, slPct := 1.2, tp1 := 101.6, tp1Pct := 1.6, tp2 := 103, tp2Pct := 3,
    tp3 := 105, tp3Pct := 5, rr1 := 4/3, rr2 := 5/2, rr3 := 25/6, rsi := 50, stoch := 60,
    btcRsi := 50, btcTrend := Trend.neutral, atr := 2, adx := 20, rec1m := Rec.buy,
    rec5m := Rec.buy, rec15m := Rec.buy, session := Session.london, signals := tsA,
    category := none }

/-- 1m data for scenario B: BUY recommendation, RSI 66. -/
def d1B : TVData := { noneTV with recommend := Rec.buy, rsi := some 66 }

/-- 5m data for scenario B: another bullish setup at close 200, with a
high RSI (65), a wide EMA spread and positive momentum, so that more
voters fire than in scenario A while the final score is the same 80. -/
def d5B : TVData :=
  { noneTV with
    recommend := Rec.buy
    close := some 200
    high := some 201
    low := some 199
    opn := some 198
    rsi := some 65
    macdLine := some 1
    macdSignal := some 0.9
    stochK := some 60
    stochD := some 50
    ema9 := some 101
    ema21 := some 100
    mom := some 1
    ao := some 1
    atr := some 4 }

/-- Extraction result of scenario B. -/
def indB : Ind :=
  { close := 200, high := 201, low := 199, opn := 198, rsi := 65, rsi1m := 66, macd := 1,
    macdSig := 0.9, stochK := 60, stochD := 50, ema9 := 101, ema21 := 100, atr := 4, mom := 1,
    ao := 1, adx := 20, volume := 0, rec1m := Rec.buy, rec5m := Rec.buy, rec15m := Rec.buy }

/-- Indicator contributions of scenario B, blocks 1-5. -/
def cs5B : List (Option Contrib) :=
  [some (Side.bull, 10), some (Side.bull, 20), some (Side.bull, 15), some (Side.bull, 5),
   some (Side.bull, 5)]

/-- All nine contributions of scenario B. -/
def csB : List (Option Contrib) :=
  cs5B ++ [some (Side.bull, 15), some (Side.bull, 10), none, none]

/-- Reason tags of scenario B (six of them; the weak-EMA +5 leaves no tag). -/
def tsB : List Tag :=
  [Tag.rsiHigh, Tag.macdUp, Tag.stochBull, Tag.momPos, Tag.tfUp, Tag.m15Up]

/-- The signal scenario B produces: same score 80 as scenario A but
seven agreeing voters and six reason tags. -/
def sigB : Signal :=
  { symbol := "LINK/USDT", direction := Dir.long, score := 80, price := 200, entry := 200,
    sl := 197.6, slPct := 1.2, tp1 := 203.2, tp1Pct := 1.6, tp2 := 206, tp2Pct := 3,
    tp3 := 210, tp3Pct := 5, rr1 := 4/3, rr2 := 5/2, rr3 := 25/6, rsi := 65, stoch := 60,
    btcRsi := 50, btcTrend := Trend.neutral, atr := 4, adx := 20, rec1m := Rec.buy,
    rec5m := Rec.buy, rec15m := Rec.buy, session := Session.london, signals := tsB,
    category := none }

/-- The scan inputs of scenarios A and B (symbols without a category). -/
def cA : CoinInput := { symbol := "ETH", tf1m := some d1A, tf5m := some d5A, tf15m := some d15A }

def cB : CoinInput := { symbol := "LINK", tf1m := some d1B, tf5m := some d5B, tf15m := some d15A }

/-- 1m data for the RSI-counterexample scenario: BUY recommendation and
a 1-minute RSI of exactly 0, which is falsy in the source. -/
def d1C4 : TVData := { noneTV with recommend := Rec.buy, rsi := some 0 }

/-- 5m data for the RSI-counterexample scenario: 5m RSI 75 (deep in the
overbought zone) while everything else is strongly bullish. -/
def d5C4 : TVData :=
  { noneTV with
    recommend := Rec.buy
    close := some 100
    high := some 101
    low := some 99
    opn := some 99
    rsi := some 75
    macdLine := some 1
    macdSignal := some 0.9
    stochK := some 60
    stochD := some 50
    ema9 := some 100.1
    ema21 := some 100
    mom := some 1
    ao := some 1
    adx := some 30
    atr := some 2 }

/-- Extraction result of the RSI-counterexample scenario. -/
def indC4 : Ind :=
  { close := 100, high := 101, low := 99, opn := 99, rsi := 75, rsi1m := 0, macd := 1,
    macdSig := 0.9, stochK := 60, stochD := 50, ema9 := 100.1, ema21 := 100, atr := 2, mom := 1,
    ao := 1, adx := 30, volume := 0, rec1m := Rec.buy, rec5m := Rec.buy, rec15m := Rec.buy }

/-- Contributions of the RSI-counterexample scenario, blocks 1-5 (the
RSI block is skipped because `rsi_1m` is falsy). -/
def cs5C4 : List (Option Contrib) :=
  [none, some (Side.bull, 20), some (Side.bull, 15), some (Side.bull, 15), some (Side.bull, 5)]

/-- All nine contributions of the RSI-counterexample scenario. -/
def csC4 : List (Option Contrib) :=
  cs5C4 ++ [some (Side.bull, 15), some (Side.bull, 10), some (Side.bull, 5), none]

/-- Reason tags of the RSI-counterexample scenario. -/
def tsC4 : List Tag :=
  [Tag.macdUp, Tag.stochBull, Tag.emaBull, Tag.momPos, Tag.tfUp, Tag.m15Up, Tag.adxStrong]

/-- The LONG signal emitted with a 5m RSI of 75. -/
def sigC4 : Signal :=
  { symbol := "ETH/USDT", direction := Dir.long, score := 85, price := 100, entry := 100,
    sl := 98.8, slPct := 1.2, tp1 := 101.6, tp1Pct := 1.6, tp2 := 103, tp2Pct := 3,
    tp3 := 105, tp3Pct := 5, rr1 := 4/3, rr2 := 5/2, rr3 := 25/6, rsi := 75, stoch := 60,
    btcRsi := 50, btcTrend := Trend.neutral, atr := 2, adx := 30, rec1m := Rec.buy,
    rec5m := Rec.buy, rec15m := Rec.buy, session := Session.london, signals := tsC4,
    category := none }

/-- 1m data for the all-abstain scenario. -/
def d1C5 : TVData := { noneTV with recommend := Rec.buy, rsi := some 50 }

/-- 5m data for the all-abstain scenario: every voter abstains, so the
bullish and bearish totals are both 0. -/
def d5C5 : TVData :=
  { noneTV with recommend := Rec.buy, close := some 100, rsi := some 50 }

/-- Extraction result of the all-abstain scenario. -/
def indC5 : Ind :=
  { close := 100, high := 0, low := 0, opn := 0, rsi := 50, rsi1m := 50, macd := 0,
    macdSig := 0, stochK := 50, stochD := 50, ema9 := 0, ema21 := 0, atr := 0, mom := 0,
    ao := 0, adx := 20, volume := 0, rec1m := Rec.buy, rec5m := Rec.buy,
    rec15m := Rec.neutral }

/-- The five abstentions of the all-abstain scenario. -/
def cs5C5 : List (Option Contrib) := [none, none, none, none, none]

/-! ## General lemmas about the pipeline -/

/-- The pattern-matched `weight` agrees with the `WEIGHTS` table. -/
theorem weight_eq_lookup : ∀ p ∈ WEIGHTS, weight p.1 = p.2 := by decide

theorem scalp_analyze_some_elim
    {env : Env} {st : ScanState} {symbol : String} {tf1m tf5m tf15m : Option TVData}
    {s : Signal} {st2 : ScanState}
    (h : scalp_analyze env st symbol tf1m tf5m tf15m = (some s, st2)) :
    ∃ d1 d5 cs ts dir score,
      tf1m = some d1 ∧ tf5m = some d5 ∧
      st.signalsToday < MAX_SIGNALS_DAY ∧
      isDangerousHour env.hour = false ∧
      cooldownActive env st symbol = false ∧
      checkCategoryLimit st symbol = true ∧
      (extractInd d1 d5 tf15m).close ≠ 0 ∧
      scoringVotes (extractInd d1 d5 tf15m) env.btcTrend = some (cs, ts) ∧
      decideDirection (sideSum Side.bull cs) (sideSum Side.bear cs) = some (dir, score) ∧
      ¬ btcRsiVeto dir env.btcRsi ∧
      ¬ btcTrendVeto dir env.btcTrend score ∧
      ¬ fakeBreakoutVeto dir score (extractInd d1 d5 tf15m) ∧
      MIN_SCORE ≤ score ∧
      s = mkSignal env symbol (extractInd d1 d5 tf15m) dir score
            (calcLevels dir (extractInd d1 d5 tf15m).close (extractInd d1 d5 tf15m).atr) ts ∧
      st2 = recordSignal env st symbol dir := by
  unfold scalp_analyze at h
  split at h
  · exact absurd h (by simp)
  next hdaily =>
  split at h
  · exact absurd h (by simp)
  next hdanger =>
  split at h
  · exact absurd h (by simp)
  next hcool =>
  split at h
  · exact absurd h (by simp)
  next hcat =>
  split at h
  case _ d1 d5 =>
    dsimp only at h
    split at h
    · exact absurd h (by simp)
    next hclose =>
    split at h
    · exact absurd h (by simp)
    next cs ts hvotes =>
    split at h
    · exact absurd h (by simp)
    next dir score hdir =>
    split at h
    · exact absurd h (by simp)
    next hrsiv =>
    split at h
    · exact absurd h (by simp)
    next htrendv =>
    split at h
    · exact absurd h (by simp)
    next hfake =>
    split at h
    · exact absurd h (by simp)
    next hscore =>
    simp only [Prod.mk.injEq, Option.some.injEq] at h
    exact ⟨d1, d5, cs, ts, dir, score, rfl, rfl, by omega, by simpa using hdanger,
      by simpa using hcool, by simpa using hcat, hclose, hvotes, hdir, hrsiv, htrendv, hfake,
      by omega, h.1.symm, h.2.symm⟩
  · exact absurd h (by simp)

theorem decideDirection_some {bull bear dir score}
    (h : decideDirection bull bear = some (dir, score)) :
    (dir = Dir.long ∧ score = min bull 100 ∧ 65 ≤ bull ∧ bear < bull) ∨
      (dir = Dir.short ∧ score = min bear 100 ∧ 65 ≤ bear ∧ bull < bear) := by
  unfold decideDirection at h
  split at h
  · next hc => simp only [Option.some.injEq, Prod.mk.injEq] at h
               exact Or.inl ⟨h.1.symm, h.2.symm, hc.1, hc.2⟩
  split at h
  · next hc => simp only [Option.some.injEq, Prod.mk.injEq] at h
               exact Or.inr ⟨h.1.symm, h.2.symm, hc.1, hc.2⟩
  · exact absurd h (by simp)

theorem rsiVote_veto_of_cond {a b : ℚ} (hc : rsiVetoCond a b) :
    rsiVote a b = StageRes.veto := by
  unfold rsiVetoCond at hc
  unfold rsiVote
  rw [if_pos ⟨hc.1, hc.2.1⟩, if_neg, if_pos hc.2.2]
  rcases hc.2.2 with hx | hx <;> push_neg <;> intro h40 <;> linarith

theorem stochVote_veto_of_cond {k d : ℚ} (hc : stochVetoCond k d) :
    stochVote k d = StageRes.veto := by
  unfold stochVetoCond at hc
  unfold stochVote
  rw [if_pos ⟨hc.1, hc.2.1⟩, if_pos hc.2.2]

theorem tfVote_veto_of_not_aligned {r1 r5 : Rec} (hc : ¬ tfAligned r1 r5) (bull bear : ℕ) :
    tfVote r1 r5 bull bear = StageRes.veto := by
  unfold tfAligned at hc
  push_neg at hc
  unfold tfVote
  rw [if_neg, if_neg]
  · intro hs
    exact hc.2 hs.1 hs.2
  · intro hb
    exact hc.1 hb.1 hb.2

theorem votes15_some_no_veto {e : Ind} {cs ts} (h : votes15 e = some (cs, ts)) :
    ¬ rsiVetoCond e.rsi e.rsi1m ∧ ¬ stochVetoCond e.stochK e.stochD := by
  constructor
  · intro hc
    unfold votes15 at h
    rw [rsiVote_veto_of_cond hc] at h
    exact absurd h (by simp)
  · intro hc
    unfold votes15 at h
    rcases hr : rsiVote e.rsi e.rsi1m with _ | ⟨o1, t1⟩ <;> rw [hr] at h
    · exact absurd h (by simp)
    · rw [stochVote_veto_of_cond hc] at h
      exact absurd h (by simp)

theorem scoringVotes_some_aligned {e : Ind} {t : Trend} {cs ts}
    (h : scoringVotes e t = some (cs, ts)) :
    ∃ cs5 ts5, votes15 e = some (cs5, ts5) ∧ tfAligned e.rec1m e.rec5m := by
  unfold scoringVotes at h
  split at h
  · exact absurd h (by simp)
  next cs5 ts5 hv =>
  dsimp only at h
  refine ⟨cs5, ts5, hv, ?_⟩
  by_contra halign
  rw [tfVote_veto_of_not_aligned halign] at h
  exact absurd h (by simp)

theorem rsiVote_wSpec (a b : ℚ) : wSpecR 20 (rsiVote a b) := by
  unfold rsiVote
  dsimp only
  repeat' split
  all_goals simp only [wSpecR, wSpec]
  all_goals intro sd w hw
  all_goals cases hw
  all_goals norm_num [weight]

theorem macdVote_wSpec (a b : ℚ) : wSpec 20 (macdVote a b).1 := by
  unfold macdVote
  dsimp only
  repeat' split
  all_goals simp only [wSpec]
  all_goals intro sd w hw
  all_goals cases hw
  all_goals norm_num [weight]

theorem stochVote_wSpec (a b : ℚ) : wSpecR 15 (stochVote a b) := by
  unfold stochVote
  repeat' split
  all_goals simp only [wSpecR, wSpec]
  all_goals intro sd w hw
  all_goals cases hw
  all_goals norm_num [weight]

theorem emaVote_wSpec (a b c : ℚ) : wSpec 15 (emaVote a b c).1 := by
  unfold emaVote
  dsimp only
  repeat' split
  all_goals simp only [wSpec]
  all_goals intro sd w hw
  all_goals cases hw
  all_goals norm_num [weight]

theorem momVote_wSpec (a b : ℚ) : wSpec 5 (momVote a b).1 := by
  unfold momVote
  repeat' split
  all_goals simp only [wSpec]
  all_goals intro sd w hw
  all_goals cases hw
  all_goals norm_num [weight]

theorem tfVote_wSpec (r1 r5 : Rec) (bull bear : ℕ) : wSpecR 15 (tfVote r1 r5 bull bear) := by
  unfold tfVote
  repeat' split
  all_goals simp only [wSpecR, wSpec]
  all_goals intro sd w hw
  all_goals cases hw
  all_goals norm_num [weight]

theorem m15Vote_wSpec (r : Rec) (bull bear : ℕ) : wSpecR 10 (m15Vote r bull bear) := by
  unfold m15Vote
  dsimp only
  repeat' split
  all_goals simp only [wSpecR, wSpec]
  all_goals intro sd w hw
  all_goals cases hw
  all_goals norm_num [weight]

theorem adxVote_wSpec (a : ℚ) (bull bear : ℕ) : wSpec 5 (adxVote a bull bear).1 := by
  unfold adxVote
  repeat' split
  all_goals simp only [wSpec]
  all_goals intro sd w hw
  all_goals cases hw
  all_goals norm_num [weight]

theorem btcVote_wSpec (t : Trend) (bull bear : ℕ) : wSpec 5 (btcVote t bull bear).1 := by
  unfold btcVote
  repeat' split
  all_goals simp only [wSpec]
  all_goals intro sd w hw
  all_goals cases hw
  all_goals norm_num [weight]

theorem wSpec_of_ok {cap : ℕ} {r : StageRes} {o t} (hr : r = StageRes.ok o t)
    (h : wSpecR cap r) : wSpec cap o := by
  subst hr
  exact h

theorem votes15_shape {e : Ind} {cs ts} (h : votes15 e = some (cs, ts)) :
    ∃ o1 o2 o3 o4 o5, cs = [o1, o2, o3, o4, o5] ∧
      wSpec 20 o1 ∧ wSpec 20 o2 ∧ wSpec 15 o3 ∧ wSpec 15 o4 ∧ wSpec 5 o5 := by
  unfold votes15 at h
  rcases hr : rsiVote e.rsi e.rsi1m with _ | ⟨o1, t1⟩ <;> rw [hr] at h
  · exact absurd h (by simp)
  rcases hs : stochVote e.stochK e.stochD with _ | ⟨o3, t3⟩ <;> rw [hs] at h
  · exact absurd h (by simp)
  simp only [Option.some.injEq, Prod.mk.injEq] at h
  exact ⟨o1, (macdVote e.macd e.macdSig).1, o3, (emaVote e.ema9 e.ema21 e.close).1,
    (momVote e.mom e.ao).1, h.1.symm,
    wSpec_of_ok hr (rsiVote_wSpec e.rsi e.rsi1m), macdVote_wSpec e.macd e.macdSig,
    wSpec_of_ok hs (stochVote_wSpec e.stochK e.stochD), emaVote_wSpec e.ema9 e.ema21 e.close,
    momVote_wSpec e.mom e.ao⟩

theorem wSpec_elem {cap : ℕ} {o : Option Contrib} (sd : Side) (h : wSpec cap o) :
    sideW sd o ≤ cap ∧
      ((sideCnt sd o = 0 ∧ sideW sd o = 0) ∨ (sideCnt sd o = 1 ∧ 5 ≤ sideW sd o)) := by
  rcases o with _ | ⟨s, w⟩
  · simp [sideW, sideCnt]
  · have hw := h s w rfl
    by_cases hs : s = sd
    · subst hs
      simp [sideW, sideCnt, hw.1, hw.2]
    · simp [sideW, sideCnt, hs]

theorem votes15_sum_le {e : Ind} {cs ts} (h : votes15 e = some (cs, ts)) (sd : Side) :
    sideSum sd cs ≤ 75 := by
  obtain ⟨o1, o2, o3, o4, o5, hcs, s1, s2, s3, s4, s5⟩ := votes15_shape h
  subst hcs
  have e1 := wSpec_elem sd s1
  have e2 := wSpec_elem sd s2
  have e3 := wSpec_elem sd s3
  have e4 := wSpec_elem sd s4
  have e5 := wSpec_elem sd s5
  simp only [sideSum, List.map_cons, List.map_nil, List.sum_cons, List.sum_nil]
  omega

theorem scoringVotes_shape {e : Ind} {t : Trend} {cs ts}
    (h : scoringVotes e t = some (cs, ts)) :
    ∃ o1 o2 o3 o4 o5 o6 o7 o8 o9, cs = [o1, o2, o3, o4, o5, o6, o7, o8, o9] ∧
      wSpec 20 o1 ∧ wSpec 20 o2 ∧ wSpec 15 o3 ∧ wSpec 15 o4 ∧ wSpec 5 o5 ∧
      wSpec 15 o6 ∧ wSpec 10 o7 ∧ wSpec 5 o8 ∧ wSpec 5 o9 := by
  unfold scoringVotes at h
  split at h
  · exact absurd h (by simp)
  next cs5 ts5 hv =>
  dsimp only at h
  obtain ⟨o1, o2, o3, o4, o5, hcs, s1, s2, s3, s4, s5⟩ := votes15_shape hv
  rcases h6 : tfVote e.rec1m e.rec5m (sideSum Side.bull cs5) (sideSum Side.bear cs5)
    with _ | ⟨o6, t6⟩ <;> rw [h6] at h <;> dsimp only at h
  · exact absurd h (by simp)
  rcases h7 : m15Vote e.rec15m (sideSum Side.bull cs5 + sideW Side.bull o6)
      (sideSum Side.bear cs5 + sideW Side.bear o6) with _ | ⟨o7, t7⟩ <;> rw [h7] at h <;>
    dsimp only at h
  · exact absurd h (by simp)
  simp only [Option.some.injEq, Prod.mk.injEq] at h
  subst hcs
  refine ⟨o1, o2, o3, o4, o5, o6, o7, _, _, h.1.symm, s1, s2, s3, s4, s5,
    wSpec_of_ok h6 (tfVote_wSpec _ _ _ _), wSpec_of_ok h7 (m15Vote_wSpec _ _ _), ?_, ?_⟩
  · exact adxVote_wSpec _ _ _
  · exact btcVote_wSpec _ _ _

theorem scoring_confluence {e : Ind} {t : Trend} {cs ts}
    (h : scoringVotes e t = some (cs, ts)) (sd : Side) (hsum : 75 ≤ sideSum sd cs) :
    5 ≤ confluence sd cs := by
  obtain ⟨o1, o2, o3, o4, o5, o6, o7, o8, o9, hcs, s1, s2, s3, s4, s5, s6, s7, s8, s9⟩ :=
    scoringVotes_shape h
  subst hcs
  have e1 := wSpec_elem sd s1
  have e2 := wSpec_elem sd s2
  have e3 := wSpec_elem sd s3
  have e4 := wSpec_elem sd s4
  have e5 := wSpec_elem sd s5
  have e6 := wSpec_elem sd s6
  have e7 := wSpec_elem sd s7
  have e8 := wSpec_elem sd s8
  have e9 := wSpec_elem sd s9
  simp only [sideSum, confluence, List.map_cons, List.map_nil, List.sum_cons,
    List.sum_nil] at hsum ⊢
  omega

theorem calcLevels_long_atr (close atr : ℚ) (h1 : atr ≠ 0) (h2 : 0 < atr) :
    calcLevels Dir.long close atr =
      { entry := close, sl := close - atr * ATR_SL, tp1 := close + atr * ATR_TP1,
        tp2 := close + atr * ATR_TP2, tp3 := close + atr * ATR_TP3,
        slPct := |close - (close - atr * ATR_SL)| / close * 100,
        tp1Pct := |close + atr * ATR_TP1 - close| / close * 100,
        tp2Pct := |close + atr * ATR_TP2 - close| / close * 100,
        tp3Pct := |close + atr * ATR_TP3 - close| / close * 100,
        rr1 := if 0 < |close - (close - atr * ATR_SL)| then
            |close + atr * ATR_TP1 - close| / |close - (close - atr * ATR_SL)| else 1,
        rr2 := if 0 < |close - (close - atr * ATR_SL)| then
            |close + atr * ATR_TP2 - close| / |close - (close - atr * ATR_SL)| else 1,
        rr3 := if 0 < |close - (close - atr * ATR_SL)| then
            |close + atr * ATR_TP3 - close| / |close - (close - atr * ATR_SL)| else 1 } := by
  unfold calcLevels
  rw [if_pos ⟨h1, h2⟩]

theorem calcLevels_short_atr (close atr : ℚ) (h1 : atr ≠ 0) (h2 : 0 < atr) :
    calcLevels Dir.short close atr =
      { entry := close, sl := close + atr * ATR_SL, tp1 := close - atr * ATR_TP1,
        tp2 := close - atr * ATR_TP2, tp3 := close - atr * ATR_TP3,
        slPct := |close - (close + atr * ATR_SL)| / close * 100,
        tp1Pct := |close - atr * ATR_TP1 - close| / close * 100,
        tp2Pct := |close - atr * ATR_TP2 - close| / close * 100,
        tp3Pct := |close - atr * ATR_TP3 - close| / close * 100,
        rr1 := if 0 < |close - (close + atr * ATR_SL)| then
            |close - atr * ATR_TP1 - close| / |close - (close + atr * ATR_SL)| else 1,
        rr2 := if 0 < |close - (close + atr * ATR_SL)| then
            |close - atr * ATR_TP2 - close| / |close - (close + atr * ATR_SL)| else 1,
        rr3 := if 0 < |close - (close + atr * ATR_SL)| then
            |close - atr * ATR_TP3 - close| / |close - (close + atr * ATR_SL)| else 1 } := by
  unfold calcLevels
  rw [if_pos ⟨h1, h2⟩]

theorem calcLevels_long_pct (close atr : ℚ) (h : ¬ (atr ≠ 0 ∧ 0 < atr)) :
    calcLevels Dir.long close atr =
      { entry := close, sl := close * (1 - PCT_SL / 100), tp1 := close * (1 + PCT_TP1 / 100),
        tp2 := close * (1 + PCT_TP2 / 100), tp3 := close * (1 + PCT_TP3 / 100),
        slPct := |close - close * (1 - PCT_SL / 100)| / close * 100,
        tp1Pct := |close * (1 + PCT_TP1 / 100) - close| / close * 100,
        tp2Pct := |close * (1 + PCT_TP2 / 100) - close| / close * 100,
        tp3Pct := |close * (1 + PCT_TP3 / 100) - close| / close * 100,
        rr1 := if 0 < |close - close * (1 - PCT_SL / 100)| then
            |close * (1 + PCT_TP1 / 100) - close| / |close - close * (1 - PCT_SL / 100)| else 1,
        rr2 := if 0 < |close - close * (1 - PCT_SL / 100)| then
            |close * (1 + PCT_TP2 / 100) - close| / |close - close * (1 - PCT_SL / 100)| else 1,
        rr3 := if 0 < |close - close * (1 - PCT_SL / 100)| then
            |close * (1 + PCT_TP3 / 100) - close| / |close - close * (1 - PCT_SL / 100)| else 1 } := by
  unfold calcLevels
  rw [if_neg h]

theorem calcLevels_short_pct (close atr : ℚ) (h : ¬ (atr ≠ 0 ∧ 0 < atr)) :
    calcLevels Dir.short close atr =
      { entry := close, sl := close * (1 + PCT_SL / 100), tp1 := close * (1 - PCT_TP1 / 100),
        tp2 := close * (1 - PCT_TP2 / 100), tp3 := close * (1 - PCT_TP3 / 100),
        slPct := |close - close * (1 + PCT_SL / 100)| / close * 100,
        tp1Pct := |close * (1 - PCT_TP1 / 100) - close| / close * 100,
        tp2Pct := |close * (1 - PCT_TP2 / 100) - close| / close * 100,
        tp3Pct := |close * (1 - PCT_TP3 / 100) - close| / close * 100,
        rr1 := if 0 < |close - close * (1 + PCT_SL / 100)| then
            |close * (1 - PCT_TP1 / 100) - close| / |close - close * (1 + PCT_SL / 100)| else 1,
        rr2 := if 0 < |close - close * (1 + PCT_SL / 100)| then
            |close * (1 - PCT_TP2 / 100) - close| / |close - close * (1 + PCT_SL / 100)| else 1,
        rr3 := if 0 < |close - close * (1 + PCT_SL / 100)| then
            |close * (1 - PCT_TP3 / 100) - close| / |close - close * (1 + PCT_SL / 100)| else 1 } := by
  unfold calcLevels
  rw [if_neg h]

theorem calcLevels_spec (dir : Dir) (close atr : ℚ) (hc : 0 < close) :
    (calcLevels dir close atr).entry = close ∧
    (dir = Dir.long →
      (calcLevels dir close atr).sl < (calcLevels dir close atr).entry ∧
      (calcLevels dir close atr).entry < (calcLevels dir close atr).tp1 ∧
      (calcLevels dir close atr).tp1 < (calcLevels dir close atr).tp2 ∧
      (calcLevels dir close atr).tp2 < (calcLevels dir close atr).tp3) ∧
    (dir = Dir.short →
      (calcLevels dir close atr).tp3 < (calcLevels dir close atr).tp2 ∧
      (calcLevels dir close atr).tp2 < (calcLevels dir close atr).tp1 ∧
      (calcLevels dir close atr).tp1 < (calcLevels dir close atr).entry ∧
      (calcLevels dir close atr).entry < (calcLevels dir close atr).sl) ∧
    0 < (calcLevels dir close atr).rr1 ∧
    0 < (calcLevels dir close atr).rr2 ∧
    0 < (calcLevels dir close atr).rr3 := by
  by_cases ha : atr ≠ 0 ∧ 0 < atr
  · have hatr := ha.2
    have cSL : (0:ℚ) < atr * ATR_SL := by rw [show ATR_SL = (0.6:ℚ) from rfl]; linarith
    have cT1 : (0:ℚ) < atr * ATR_TP1 := by rw [show ATR_TP1 = (0.8:ℚ) from rfl]; linarith
    have cT2 : (0:ℚ) < atr * ATR_TP2 := by rw [show ATR_TP2 = (1.5:ℚ) from rfl]; linarith
    have cT3 : (0:ℚ) < atr * ATR_TP3 := by rw [show ATR_TP3 = (2.5:ℚ) from rfl]; linarith
    have c12 : atr * ATR_TP1 < atr * ATR_TP2 := by
      rw [show ATR_TP1 = (0.8:ℚ) from rfl, show ATR_TP2 = (1.5:ℚ) from rfl]; linarith
    have c23 : atr * ATR_TP2 < atr * ATR_TP3 := by
      rw [show ATR_TP2 = (1.5:ℚ) from rfl, show ATR_TP3 = (2.5:ℚ) from rfl]; linarith
    rcases dir with _ | _
    · rw [calcLevels_long_atr close atr ha.1 ha.2]
      dsimp only
      have e1 : close - (close - atr * ATR_SL) = atr * ATR_SL := by ring
      have e2 : close + atr * ATR_TP1 - close = atr * ATR_TP1 := by ring
      have e3 : close + atr * ATR_TP2 - close = atr * ATR_TP2 := by ring
      have e4 : close + atr * ATR_TP3 - close = atr * ATR_TP3 := by ring
      rw [e1, e2, e3, e4, abs_of_pos cSL, abs_of_pos cT1, abs_of_pos cT2, abs_of_pos cT3]
      simp only [if_pos cSL]
      repeat' apply And.intro
      all_goals try trivial
      all_goals try (intro hd; cases hd)
      all_goals first
        | linarith
        | exact div_pos cT1 cSL
        | exact div_pos cT2 cSL
        | exact div_pos cT3 cSL
        | (refine ⟨?_, ?_, ?_, ?_⟩ <;> linarith)
    · rw [calcLevels_short_atr close atr ha.1 ha.2]
      dsimp only
      have e1 : close - (close + atr * ATR_SL) = -(atr * ATR_SL) := by ring
      have e2 : close - atr * ATR_TP1 - close = -(atr * ATR_TP1) := by ring
      have e3 : close - atr * ATR_TP2 - close = -(atr * ATR_TP2) := by ring
      have e4 : close - atr * ATR_TP3 - close = -(atr * ATR_TP3) := by ring
      rw [e1, e2, e3, e4, abs_neg, abs_neg, abs_neg, abs_neg,
        abs_of_pos cSL, abs_of_pos cT1, abs_of_pos cT2, abs_of_pos cT3]
      simp only [if_pos cSL]
      repeat' apply And.intro
      all_goals try trivial
      all_goals try (intro hd; cases hd)
      all_goals first
        | linarith
        | exact div_pos cT1 cSL
        | exact div_pos cT2 cSL
        | exact div_pos cT3 cSL
        | (refine ⟨?_, ?_, ?_, ?_⟩ <;> linarith)
  · have cSL : (0:ℚ) < close * (PCT_SL / 100) := by
      rw [show PCT_SL = (0.5:ℚ) from rfl]; nlinarith
    have cT1 : (0:ℚ) < close * (PCT_TP1 / 100) := by
      rw [show PCT_TP1 = (0.6:ℚ) from rfl]; nlinarith
    have cT2 : (0:ℚ) < close * (PCT_TP2 / 100) := by
      rw [show PCT_TP2 = (1.2:ℚ) from rfl]; nlinarith
    have cT3 : (0:ℚ) < close * (PCT_TP3 / 100) := by
      rw [show PCT_TP3 = (2.0:ℚ) from rfl]; nlinarith
    have c12 : close * (PCT_TP1 / 100) < close * (PCT_TP2 / 100) := by
      rw [show PCT_TP1 = (0.6:ℚ) from rfl, show PCT_TP2 = (1.2:ℚ) from rfl]; nlinarith
    have c23 : close * (PCT_TP2 / 100) < close * (PCT_TP3 / 100) := by
      rw [show PCT_TP2 = (1.2:ℚ) from rfl, show PCT_TP3 = (2.0:ℚ) from rfl]; nlinarith
    rcases dir with _ | _
    · rw [calcLevels_long_pct close atr ha]
      dsimp only
      have e1 : close - close * (1 - PCT_SL / 100) = close * (PCT_SL / 100) := by ring
      have e2 : close * (1 + PCT_TP1 / 100) - close = close * (PCT_TP1 / 100) := by ring
      have e3 : close * (1 + PCT_TP2 / 100) - close = close * (PCT_TP2 / 100) := by ring
      have e4 : close * (1 + PCT_TP3 / 100) - close = close * (PCT_TP3 / 100) := by ring
      rw [e1, e2, e3, e4, abs_of_pos cSL, abs_of_pos cT1, abs_of_pos cT2, abs_of_pos cT3]
      simp only [if_pos cSL]
      repeat' apply And.intro
      all_goals try trivial
      all_goals try (intro hd; cases hd)
      all_goals first
        | linarith
        | exact div_pos cT1 cSL
        | exact div_pos cT2 cSL
        | exact div_pos cT3 cSL
        | (refine ⟨?_, ?_, ?_, ?_⟩ <;> linarith)
    · rw [calcLevels_short_pct close atr ha]
      dsimp only
      have e1 : close - close * (1 + PCT_SL / 100) = -(close * (PCT_SL / 100)) := by ring
      have e2 : close * (1 - PCT_TP1 / 100) - close = -(close * (PCT_TP1 / 100)) := by ring
      have e3 : close * (1 - PCT_TP2 / 100) - close = -(close * (PCT_TP2 / 100)) := by ring
      have e4 : close * (1 - PCT_TP3 / 100) - close = -(close * (PCT_TP3 / 100)) := by ring
      rw [e1, e2, e3, e4, abs_neg, abs_neg, abs_neg, abs_neg,
        abs_of_pos cSL, abs_of_pos cT1, abs_of_pos cT2, abs_of_pos cT3]
      simp only [if_pos cSL]
      repeat' apply And.intro
      all_goals try trivial
      all_goals try (intro hd; cases hd)
      all_goals first
        | linarith
        | exact div_pos cT1 cSL
        | exact div_pos cT2 cSL
        | exact div_pos cT3 cSL
        | (refine ⟨?_, ?_, ?_, ?_⟩ <;> linarith)

theorem tfVote_tie {r1 r5 : Rec} {bull bear : ℕ} {o t} (htie : bull = bear)
    (h : tfVote r1 r5 bull bear = StageRes.ok o t) : o = none := by
  unfold tfVote at h
  split_ifs at h <;> first
    | omega
    | (cases h; rfl)

theorem m15Vote_tie_veto {r : Rec} {bull bear : ℕ} (htie : bull = bear) (hle : bull ≤ 75) :
    m15Vote r bull bear = StageRes.veto := by
  unfold m15Vote
  rw [if_neg, if_neg, if_neg]
  · omega
  · intro hx
    omega
  · intro hx
    omega

theorem scoringVotes_tie_none {e : Ind} {t : Trend} {cs5 ts5}
    (h5 : votes15 e = some (cs5, ts5))
    (htie : sideSum Side.bull cs5 = sideSum Side.bear cs5) :
    scoringVotes e t = none := by
  have hle := votes15_sum_le h5 Side.bull
  unfold scoringVotes
  rw [h5]
  dsimp only
  rcases h6 : tfVote e.rec1m e.rec5m (sideSum Side.bull cs5) (sideSum Side.bear cs5)
    with _ | ⟨o6, t6⟩
  · rfl
  · have ho6 : o6 = none := tfVote_tie htie h6
    subst ho6
    dsimp only
    simp only [sideW, Nat.add_zero]
    rw [m15Vote_tie_veto htie hle]

theorem scalp_none_of_scoring_none {env : Env} {st : ScanState} {symbol : String}
    {d1 d5 : TVData} {t15 : Option TVData}
    (h : scoringVotes (extractInd d1 d5 t15) env.btcTrend = none) :
    (scalp_analyze env st symbol (some d1) (some d5) t15).1 = none := by
  unfold scalp_analyze
  split
  · rfl
  split
  · rfl
  split
  · rfl
  split
  · rfl
  dsimp only
  split
  · rfl
  rw [h]

theorem votes15_none_of_rsi {e : Ind} (hc : rsiVetoCond e.rsi e.rsi1m) : votes15 e = none := by
  unfold votes15
  rw [rsiVote_veto_of_cond hc]

theorem scoringVotes_none_of_votes15 {e : Ind} {t : Trend} (h : votes15 e = none) :
    scoringVotes e t = none := by
  unfold scoringVotes
  rw [h]


/-! ## Closed-input evaluation lemmas -/

theorem sideW_none (sd : Side) : sideW sd none = 0 := rfl

theorem sideW_bb (w : ℕ) : sideW Side.bull (some (Side.bull, w)) = w := rfl

theorem sideW_rb (w : ℕ) : sideW Side.bear (some (Side.bull, w)) = 0 := rfl

theorem extractA : extractInd d1A d5A (some d15A) = indA := by
  simp [extractInd, d1A, d5A, d15A, noneTV, indA]

theorem v15A : votes15 indA = some (cs5A, [Tag.rsiUp, Tag.macdUp, Tag.stochBull]) := by
  have h1 : rsiVote indA.rsi indA.rsi1m = StageRes.ok (some (Side.bull, 20)) (some Tag.rsiUp) := by
    norm_num [rsiVote, indA, weight]
  have h2 : macdVote indA.macd indA.macdSig = (some (Side.bull, 20), some Tag.macdUp) := by
    norm_num [macdVote, indA, weight]
  have h3 : stochVote indA.stochK indA.stochD =
      StageRes.ok (some (Side.bull, 15)) (some Tag.stochBull) := by
    norm_num [stochVote, indA, weight]
  have h4 : emaVote indA.ema9 indA.ema21 indA.close = (none, none) := by
    norm_num [emaVote, indA]
  have h5 : momVote indA.mom indA.ao = (none, none) := by
    norm_num [momVote, indA]
  rw [votes15, h1, h3, h2, h4, h5]
  rfl

theorem scoringA : scoringVotes indA Trend.neutral = some (csA, tsA) := by
  have hb5 : sideSum Side.bull cs5A = 55 := by simp [sideSum, cs5A, sideW_bb, sideW_none]
  have hr5 : sideSum Side.bear cs5A = 0 := by simp [sideSum, cs5A, sideW_rb, sideW_none]
  have h6 : tfVote indA.rec1m indA.rec5m 55 0 =
      StageRes.ok (some (Side.bull, 15)) (some Tag.tfUp) := by
    norm_num [tfVote, indA, isBuyRec, weight]
  have h7 : m15Vote indA.rec15m 70 0 = StageRes.ok (some (Side.bull, 10)) (some Tag.m15Up) := by
    norm_num [m15Vote, indA, isBuyRec, isSellRec, weight]
  have h8 : adxVote indA.adx 80 0 = (none, none) := by
    norm_num [adxVote, indA]
  have h9 : btcVote Trend.neutral 80 0 = (none, none) := by
    simp [btcVote]
  rw [scoringVotes, v15A]
  simp only [hb5, hr5]
  rw [h6]
  simp only [sideW_bb, sideW_rb, sideW_none]
  norm_num
  rw [h7]
  simp only [sideW_bb, sideW_rb, sideW_none]
  norm_num
  rw [h8]
  simp only [sideW_bb, sideW_rb, sideW_none]
  norm_num
  rw [h9]
  simp [csA, cs5A, tsA]

theorem csumA1 : sideSum Side.bull csA = 80 := by
  simp [sideSum, csA, cs5A, sideW_bb, sideW_none]

theorem csumA2 : sideSum Side.bear csA = 0 := by
  simp [sideSum, csA, cs5A, sideW_rb, sideW_none]

theorem decideA : decideDirection 80 0 = some (Dir.long, 80) := by
  norm_num [decideDirection]

theorem levelsA : calcLevels Dir.long 100 2 =
    { entry := 100, sl := 98.8, tp1 := 101.6, tp2 := 103, tp3 := 105, slPct := 1.2,
      tp1Pct := 1.6, tp2Pct := 3, tp3Pct := 5, rr1 := 4/3, rr2 := 5/2, rr3 := 25/6 } := by
  norm_num [calcLevels, ATR_SL, ATR_TP1, ATR_TP2, ATR_TP3, abs_of_pos]

theorem scalpA_eval (st : ScanState) (h1 : st.signalsToday < MAX_SIGNALS_DAY)
    (h2 : cooldownActive envA st "ETH" = false)
    (h3 : checkCategoryLimit st "ETH" = true) :
    scalp_analyze envA st "ETH" (some d1A) (some d5A) (some d15A) =
      (some sigA, recordSignal envA st "ETH" Dir.long) := by
  rw [scalp_analyze]
  rw [if_neg (by unfold MAX_SIGNALS_DAY at h1 ⊢; omega)]
  rw [if_neg (by simp [isDangerousHour, DANGEROUS_HOURS, envA])]
  rw [if_neg (by simp [h2])]
  rw [if_neg (by simp [h3])]
  dsimp only
  rw [extractA]
  rw [if_neg (by norm_num [indA])]
  have ht : envA.btcTrend = Trend.neutral := rfl
  rw [ht, scoringA]
  dsimp only
  rw [csumA1, csumA2, decideA]
  dsimp only
  rw [if_neg (by norm_num [btcRsiVeto, envA])]
  rw [if_neg (by simp [btcTrendVeto, envA])]
  rw [if_neg (by norm_num [fakeBreakoutVeto, bodyRatio, indA, abs_of_pos])]
  rw [if_neg (by norm_num [MIN_SCORE])]
  have hc : indA.close = 100 := rfl
  have ha : indA.atr = 2 := rfl
  rw [hc, ha, levelsA]
  simp [mkSignal, sigA, indA, envA, marketSession, getCoinCategory, COIN_CATEGORIES, tsA]

theorem extractB : extractInd d1B d5B (some d15A) = indB := by
  simp [extractInd, d1B, d5B, d15A, noneTV, indB]

theorem v15B : votes15 indB =
    some (cs5B, [Tag.rsiHigh, Tag.macdUp, Tag.stochBull, Tag.momPos]) := by
  have h1 : rsiVote indB.rsi indB.rsi1m = StageRes.ok (some (Side.bull, 10)) (some Tag.rsiHigh) := by
    norm_num [rsiVote, indB, weight]
  have h2 : macdVote indB.macd indB.macdSig = (some (Side.bull, 20), some Tag.macdUp) := by
    norm_num [macdVote, indB, weight]
  have h3 : stochVote indB.stochK indB.stochD =
      StageRes.ok (some (Side.bull, 15)) (some Tag.stochBull) := by
    norm_num [stochVote, indB, weight]
  have h4 : emaVote indB.ema9 indB.ema21 indB.close = (some (Side.bull, 5), none) := by
    norm_num [emaVote, indB]
  have h5 : momVote indB.mom indB.ao = (some (Side.bull, 5), some Tag.momPos) := by
    norm_num [momVote, indB, weight]
  rw [votes15, h1, h3, h2, h4, h5]
  rfl

theorem scoringB : scoringVotes indB Trend.neutral = some (csB, tsB) := by
  have hb5 : sideSum Side.bull cs5B = 55 := by simp [sideSum, cs5B, sideW_bb, sideW_none]
  have hr5 : sideSum Side.bear cs5B = 0 := by simp [sideSum, cs5B, sideW_rb, sideW_none]
  have h6 : tfVote indB.rec1m indB.rec5m 55 0 =
      StageRes.ok (some (Side.bull, 15)) (some Tag.tfUp) := by
    norm_num [tfVote, indB, isBuyRec, weight]
  have h7 : m15Vote indB.rec15m 70 0 = StageRes.ok (some (Side.bull, 10)) (some Tag.m15Up) := by
    norm_num [m15Vote, indB, isBuyRec, isSellRec, weight]
  have h8 : adxVote indB.adx 80 0 = (none, none) := by
    norm_num [adxVote, indB]
  have h9 : btcVote Trend.neutral 80 0 = (none, none) := by
    simp [btcVote]
  rw [scoringVotes, v15B]
  simp only [hb5, hr5]
  rw [h6]
  simp only [sideW_bb, sideW_rb, sideW_none]
  norm_num
  rw [h7]
  simp only [sideW_bb, sideW_rb, sideW_none]
  norm_num
  rw [h8]
  simp only [sideW_bb, sideW_rb, sideW_none]
  norm_num
  rw [h9]
  simp [csB, cs5B, tsB]

theorem csumB1 : sideSum Side.bull csB = 80 := by
  simp [sideSum, csB, cs5B, sideW_bb, sideW_none]

theorem csumB2 : sideSum Side.bear csB = 0 := by
  simp [sideSum, csB, cs5B, sideW_rb, sideW_none]

theorem levelsB : calcLevels Dir.long 200 4 =
    { entry := 200, sl := 197.6, tp1 := 203.2, tp2 := 206, tp3 := 210, slPct := 1.2,
      tp1Pct := 1.6, tp2Pct := 3, tp3Pct := 5, rr1 := 4/3, rr2 := 5/2, rr3 := 25/6 } := by
  norm_num [calcLevels, ATR_SL, ATR_TP1, ATR_TP2, ATR_TP3, abs_of_pos]

theorem scalpB_eval (st : ScanState) (h1 : st.signalsToday < MAX_SIGNALS_DAY)
    (h2 : cooldownActive envA st "LINK" = false)
    (h3 : checkCategoryLimit st "LINK" = true) :
    scalp_analyze envA st "LINK" (some d1B) (some d5B) (some d15A) =
      (some sigB, recordSignal envA st "LINK" Dir.long) := by
  rw [scalp_analyze]
  rw [if_neg (by unfold MAX_SIGNALS_DAY at h1 ⊢; omega)]
  rw [if_neg (by simp [isDangerousHour, DANGEROUS_HOURS, envA])]
  rw [if_neg (by simp [h2])]
  rw [if_neg (by simp [h3])]
  dsimp only
  rw [extractB]
  rw [if_neg (by norm_num [indB])]
  have ht : envA.btcTrend = Trend.neutral := rfl
  rw [ht, scoringB]
  dsimp only
  rw [csumB1, csumB2, decideA]
  dsimp only
  rw [if_neg (by norm_num [btcRsiVeto, envA])]
  rw [if_neg (by simp [btcTrendVeto, envA])]
  rw [if_neg (by norm_num [fakeBreakoutVeto, bodyRatio, indB, abs_of_pos])]
  rw [if_neg (by norm_num [MIN_SCORE])]
  have hc : indB.close = 200 := rfl
  have ha : indB.atr = 4 := rfl
  rw [hc, ha, levelsB]
  simp [mkSignal, sigB, indB, envA, marketSession, getCoinCategory, COIN_CATEGORIES, tsB]

theorem extractC4 : extractInd d1C4 d5C4 (some d15A) = indC4 := by
  simp [extractInd, d1C4, d5C4, d15A, noneTV, indC4]

theorem v15C4 : votes15 indC4 =
    some (cs5C4, [Tag.macdUp, Tag.stochBull, Tag.emaBull, Tag.momPos]) := by
  have h1 : rsiVote indC4.rsi indC4.rsi1m = StageRes.ok none none := by
    norm_num [rsiVote, indC4]
  have h2 : macdVote indC4.macd indC4.macdSig = (some (Side.bull, 20), some Tag.macdUp) := by
    norm_num [macdVote, indC4, weight]
  have h3 : stochVote indC4.stochK indC4.stochD =
      StageRes.ok (some (Side.bull, 15)) (some Tag.stochBull) := by
    norm_num [stochVote, indC4, weight]
  have h4 : emaVote indC4.ema9 indC4.ema21 indC4.close =
      (some (Side.bull, 15), some Tag.emaBull) := by
    norm_num [emaVote, indC4, weight]
  have h5 : momVote indC4.mom indC4.ao = (some (Side.bull, 5), some Tag.momPos) := by
    norm_num [momVote, indC4, weight]
  rw [votes15, h1, h3, h2, h4, h5]
  rfl

theorem scoringC4 : scoringVotes indC4 Trend.neutral = some (csC4, tsC4) := by
  have hb5 : sideSum Side.bull cs5C4 = 55 := by simp [sideSum, cs5C4, sideW_bb, sideW_none]
  have hr5 : sideSum Side.bear cs5C4 = 0 := by simp [sideSum, cs5C4, sideW_rb, sideW_none]
  have h6 : tfVote indC4.rec1m indC4.rec5m 55 0 =
      StageRes.ok (some (Side.bull, 15)) (some Tag.tfUp) := by
    norm_num [tfVote, indC4, isBuyRec, weight]
  have h7 : m15Vote indC4.rec15m 70 0 = StageRes.ok (some (Side.bull, 10)) (some Tag.m15Up) := by
    norm_num [m15Vote, indC4, isBuyRec, isSellRec, weight]
  have h8 : adxVote indC4.adx 80 0 = (some (Side.bull, 5), some Tag.adxStrong) := by
    norm_num [adxVote, indC4, weight]
  have h9 : btcVote Trend.neutral 85 0 = (none, none) := by
    simp [btcVote]
  rw [scoringVotes, v15C4]
  simp only [hb5, hr5]
  rw [h6]
  simp only [sideW_bb, sideW_rb, sideW_none]
  norm_num
  rw [h7]
  simp only [sideW_bb, sideW_rb, sideW_none]
  norm_num
  rw [h8]
  simp only [sideW_bb, sideW_rb, sideW_none]
  norm_num
  rw [h9]
  simp [csC4, cs5C4, tsC4]

theorem csumC41 : sideSum Side.bull csC4 = 85 := by
  simp [sideSum, csC4, cs5C4, sideW_bb, sideW_none]

theorem csumC42 : sideSum Side.bear csC4 = 0 := by
  simp [sideSum, csC4, cs5C4, sideW_rb, sideW_none]

theorem decideC4 : decideDirection 85 0 = some (Dir.long, 85) := by
  norm_num [decideDirection]

theorem scalpC4_eval (st : ScanState) (h1 : st.signalsToday < MAX_SIGNALS_DAY)
    (h2 : cooldownActive envA st "ETH" = false)
    (h3 : checkCategoryLimit st "ETH" = true) :
    scalp_analyze envA st "ETH" (some d1C4) (some d5C4) (some d15A) =
      (some sigC4, recordSignal envA st "ETH" Dir.long) := by
  rw [scalp_analyze]
  rw [if_neg (by unfold MAX_SIGNALS_DAY at h1 ⊢; omega)]
  rw [if_neg (by simp [isDangerousHour, DANGEROUS_HOURS, envA])]
  rw [if_neg (by simp [h2])]
  rw [if_neg (by simp [h3])]
  dsimp only
  rw [extractC4]
  rw [if_neg (by norm_num [indC4])]
  have ht : envA.btcTrend = Trend.neutral := rfl
  rw [ht, scoringC4]
  dsimp only
  rw [csumC41, csumC42, decideC4]
  dsimp only
  rw [if_neg (by norm_num [btcRsiVeto, envA])]
  rw [if_neg (by simp [btcTrendVeto, envA])]
  rw [if_neg (by norm_num [fakeBreakoutVeto, bodyRatio, indC4, abs_of_pos])]
  rw [if_neg (by norm_num [MIN_SCORE])]
  have hc : indC4.close = 100 := rfl
  have ha : indC4.atr = 2 := rfl
  rw [hc, ha, levelsA]
  simp [mkSignal, sigC4, indC4, envA, marketSession, getCoinCategory, COIN_CATEGORIES, tsC4]

theorem extractC5 : extractInd d1C5 d5C5 none = indC5 := by
  simp [extractInd, d1C5, d5C5, noneTV, indC5]

theorem v15C5 : votes15 indC5 = some (cs5C5, []) := by
  have h1 : rsiVote indC5.rsi indC5.rsi1m = StageRes.ok none none := by
    norm_num [rsiVote, indC5]
  have h2 : macdVote indC5.macd indC5.macdSig = (none, none) := by
    norm_num [macdVote, indC5]
  have h3 : stochVote indC5.stochK indC5.stochD = StageRes.ok none none := by
    norm_num [stochVote, indC5]
  have h4 : emaVote indC5.ema9 indC5.ema21 indC5.close = (none, none) := by
    norm_num [emaVote, indC5]
  have h5 : momVote indC5.mom indC5.ao = (none, none) := by
    norm_num [momVote, indC5]
  rw [votes15, h1, h3, h2, h4, h5]
  rfl

theorem c5sum : sideSum Side.bull cs5C5 = sideSum Side.bear cs5C5 := by
  simp [sideSum, cs5C5, sideW_none]

theorem scanFoldAB (n : ℕ) (hn : n < MAX_SIGNALS_DAY) :
    scanFold envA (stN n) [cA, cB] =
      ([sigA, sigB],
        recordSignal envA (recordSignal envA (stN n) "ETH" Dir.long) "LINK" Dir.long) := by
  have hA := scalpA_eval (stN n) (by simpa [stN] using hn)
    (by simp [cooldownActive, stN]) (by simp [checkCategoryLimit, getCoinCategory, COIN_CATEGORIES])
  have hB := scalpB_eval (recordSignal envA (stN n) "ETH" Dir.long)
    (by simp [recordSignal, stN, getCoinCategory, COIN_CATEGORIES]; omega)
    (by simp [cooldownActive, recordSignal, stN, getCoinCategory, COIN_CATEGORIES])
    (by simp [checkCategoryLimit, recordSignal, getCoinCategory, COIN_CATEGORIES])
  simp only [scanFold, cA, cB]
  rw [hA]
  dsimp only
  rw [hB]

theorem runScanAB (n : ℕ) (hn : n < MAX_SIGNALS_DAY) :
    runScan envA (stN n) [cA, cB] =
      ([sigA, sigB],
        recordSignal envA (recordSignal envA (stN n) "ETH" Dir.long) "LINK" Dir.long) := by
  unfold runScan
  dsimp only
  rw [if_neg (by simp [envA]; decide)]
  rw [if_neg (by norm_num [envA])]
  have hst2 : ({ (stN n) with recent := pruneRecent envA.now (stN n).recent } : ScanState) =
      stN n := rfl
  rw [hst2]
  rw [scanFoldAB n hn]
  dsimp only
  have hsort : List.insertionSort scoreDesc [sigA, sigB] = [sigA, sigB] := by
    simp [List.insertionSort, List.orderedInsert, scoreDesc, sigA, sigB]
  rw [hsort]
  rfl

/-! ## The claims -/

/-- C1: a signal is returned only if the score is at least `MIN_SCORE`,
the winning side's accumulated voter total strictly exceeds the opposite
side's, at least five non-abstaining voters agree with the winning
direction (the code has no explicit `MIN_CONFLUENCE` constant; five is
the minimum the weight table allows at the 75-score floor), and no veto
condition — RSI extreme zone, Stochastic extreme zone, 1m/5m timeframe
misalignment, dangerous hour, cooldown, daily or category budget,
fake-breakout heuristic — holds. -/
theorem c1_emission_gates (env : Env) (st : ScanState) (symbol : String)
    (d1 d5 : TVData) (t15 : Option TVData) (s : Signal)
    (h : (scalp_analyze env st symbol (some d1) (some d5) t15).1 = some s) :
    MIN_SCORE ≤ s.score ∧
    (∃ cs ts, scoringVotes (extractInd d1 d5 t15) env.btcTrend = some (cs, ts) ∧
      (s.direction = Dir.long → sideSum Side.bear cs < sideSum Side.bull cs ∧
        5 ≤ confluence Side.bull cs) ∧
      (s.direction = Dir.short → sideSum Side.bull cs < sideSum Side.bear cs ∧
        5 ≤ confluence Side.bear cs)) ∧
    ¬ rsiVetoCond (extractInd d1 d5 t15).rsi (extractInd d1 d5 t15).rsi1m ∧
    ¬ stochVetoCond (extractInd d1 d5 t15).stochK (extractInd d1 d5 t15).stochD ∧
    tfAligned (extractInd d1 d5 t15).rec1m (extractInd d1 d5 t15).rec5m ∧
    isDangerousHour env.hour = false ∧
    cooldownActive env st symbol = false ∧
    st.signalsToday < MAX_SIGNALS_DAY ∧
    checkCategoryLimit st symbol = true ∧
    ¬ fakeBreakoutVeto s.direction s.score (extractInd d1 d5 t15) := by
  have hp : scalp_analyze env st symbol (some d1) (some d5) t15 =
      (some s, (scalp_analyze env st symbol (some d1) (some d5) t15).2) := by
    rw [← h]
  obtain ⟨d1', d5', cs, ts, dir, score, hd1, hd5, hdaily, hdang, hcool, hcat, hclose, hvotes,
    hdir, hrsiv, htrendv, hfake, hmin, hsig, hst⟩ := scalp_analyze_some_elim hp
  cases hd1
  cases hd5
  have hsdir : s.direction = dir := by rw [hsig]; rfl
  have hsscore : s.score = score := by rw [hsig]; rfl
  obtain ⟨cs5, ts5, hv15, halign⟩ := scoringVotes_some_aligned hvotes
  have hnoveto := votes15_some_no_veto hv15
  have hmin75 : (75:ℕ) ≤ score := hmin
  refine ⟨by rw [hsscore]; exact hmin, ⟨cs, ts, hvotes, ?_, ?_⟩, hnoveto.1, hnoveto.2, halign,
    hdang, hcool, hdaily, hcat, by rw [hsdir, hsscore]; exact hfake⟩
  · intro hl
    rcases decideDirection_some hdir with ⟨hdl, hsc, hb65, hlt⟩ | ⟨hdl, hsc, hb65, hlt⟩
    · exact ⟨hlt, scoring_confluence hvotes Side.bull (by omega)⟩
    · rw [hsdir, hdl] at hl
      cases hl
  · intro hl
    rcases decideDirection_some hdir with ⟨hdl, hsc, hb65, hlt⟩ | ⟨hdl, hsc, hb65, hlt⟩
    · rw [hsdir, hdl] at hl
      cases hl
    · exact ⟨hlt, scoring_confluence hvotes Side.bear (by omega)⟩

/-- C1 witness: the gates evaluated on the concrete scenario A, which
does produce a signal. -/
theorem c1_witness :
    MIN_SCORE ≤ sigA.score ∧
    (∃ cs ts, scoringVotes (extractInd d1A d5A (some d15A)) envA.btcTrend = some (cs, ts) ∧
      (sigA.direction = Dir.long → sideSum Side.bear cs < sideSum Side.bull cs ∧
        5 ≤ confluence Side.bull cs) ∧
      (sigA.direction = Dir.short → sideSum Side.bull cs < sideSum Side.bear cs ∧
        5 ≤ confluence Side.bear cs)) ∧
    ¬ rsiVetoCond (extractInd d1A d5A (some d15A)).rsi (extractInd d1A d5A (some d15A)).rsi1m ∧
    ¬ stochVetoCond (extractInd d1A d5A (some d15A)).stochK
        (extractInd d1A d5A (some d15A)).stochD ∧
    tfAligned (extractInd d1A d5A (some d15A)).rec1m (extractInd d1A d5A (some d15A)).rec5m ∧
    isDangerousHour envA.hour = false ∧
    cooldownActive envA stA "ETH" = false ∧
    stA.signalsToday < MAX_SIGNALS_DAY ∧
    checkCategoryLimit stA "ETH" = true ∧
    ¬ fakeBreakoutVeto sigA.direction sigA.score (extractInd d1A d5A (some d15A)) :=
  c1_emission_gates envA stA "ETH" d1A d5A (some d15A) sigA
    (by rw [scalpA_eval stA (by norm_num [stA, stN, MAX_SIGNALS_DAY])
      (by simp [cooldownActive, stA, stN])
      (by simp [checkCategoryLimit, getCoinCategory, COIN_CATEGORIES])])

/-- C3: every returned signal with a positive close price has properly
ordered trade levels (stop below entry below the take-profits for LONG,
mirrored for SHORT) and strictly positive risk/reward ratios — on both
the ATR path and the percentage-fallback path, which the proof covers
by cases on the extracted ATR. -/
theorem c3_levels_ordered (env : Env) (st : ScanState) (symbol : String)
    (tf1 tf5 tf15 : Option TVData) (s : Signal)
    (h : (scalp_analyze env st symbol tf1 tf5 tf15).1 = some s) (hpos : 0 < s.price) :
    (s.direction = Dir.long →
      s.sl < s.entry ∧ s.entry < s.tp1 ∧ s.tp1 < s.tp2 ∧ s.tp2 < s.tp3) ∧
    (s.direction = Dir.short →
      s.tp3 < s.tp2 ∧ s.tp2 < s.tp1 ∧ s.tp1 < s.entry ∧ s.entry < s.sl) ∧
    0 < s.rr1 ∧ 0 < s.rr2 ∧ 0 < s.rr3 := by
  have hp : scalp_analyze env st symbol tf1 tf5 tf15 =
      (some s, (scalp_analyze env st symbol tf1 tf5 tf15).2) := by
    rw [← h]
  obtain ⟨d1, d5, cs, ts, dir, score, hd1, hd5, hdaily, hdang, hcool, hcat, hclose, hvotes,
    hdir, hrsiv, htrendv, hfake, hmin, hsig, hst⟩ := scalp_analyze_some_elim hp
  subst hsig
  have hpos2 : 0 < (extractInd d1 d5 tf15).close := hpos
  have hspec := calcLevels_spec dir (extractInd d1 d5 tf15).close (extractInd d1 d5 tf15).atr hpos2
  exact ⟨fun hd => hspec.2.1 hd, fun hd => hspec.2.2.1 hd, hspec.2.2.2.1, hspec.2.2.2.2.1,
    hspec.2.2.2.2.2⟩

/-- C3 witness: scenario A produces a LONG signal with positive close;
the level ordering and risk/reward positivity hold there. -/
theorem c3_witness :
    (sigA.direction = Dir.long →
      sigA.sl < sigA.entry ∧ sigA.entry < sigA.tp1 ∧ sigA.tp1 < sigA.tp2 ∧ sigA.tp2 < sigA.tp3) ∧
    (sigA.direction = Dir.short →
      sigA.tp3 < sigA.tp2 ∧ sigA.tp2 < sigA.tp1 ∧ sigA.tp1 < sigA.entry ∧
        sigA.entry < sigA.sl) ∧
    0 < sigA.rr1 ∧ 0 < sigA.rr2 ∧ 0 < sigA.rr3 :=
  c3_levels_ordered envA stA "ETH" (some d1A) (some d5A) (some d15A) sigA
    (by rw [scalpA_eval stA (by norm_num [stA, stN, MAX_SIGNALS_DAY])
      (by simp [cooldownActive, stA, stN])
      (by simp [checkCategoryLimit, getCoinCategory, COIN_CATEGORIES])])
    (by norm_num [sigA])

/-- C9: every returned signal's score is at most 100 (it is a `ℕ`, so at
least 0 by construction), while the sum of all configured voter weights
is 110 > 100 — the winning side's accumulated weight is capped. -/
theorem c9_score_range (env : Env) (st : ScanState) (symbol : String)
    (tf1 tf5 tf15 : Option TVData) (s : Signal)
    (h : (scalp_analyze env st symbol tf1 tf5 tf15).1 = some s) :
    s.score ≤ 100 ∧ (WEIGHTS.map Prod.snd).sum = 110 ∧ 100 < (WEIGHTS.map Prod.snd).sum := by
  have hp : scalp_analyze env st symbol tf1 tf5 tf15 =
      (some s, (scalp_analyze env st symbol tf1 tf5 tf15).2) := by
    rw [← h]
  obtain ⟨d1, d5, cs, ts, dir, score, hd1, hd5, hdaily, hdang, hcool, hcat, hclose, hvotes,
    hdir, hrsiv, htrendv, hfake, hmin, hsig, hst⟩ := scalp_analyze_some_elim hp
  have hsscore : s.score = score := by rw [hsig]; rfl
  have hW : (WEIGHTS.map Prod.snd).sum = 110 := by norm_num [WEIGHTS]
  refine ⟨?_, hW, by rw [hW]; norm_num⟩
  rcases decideDirection_some hdir with ⟨-, hsc, -, -⟩ | ⟨-, hsc, -, -⟩ <;>
    rw [hsscore, hsc] <;> exact Nat.min_le_right _ _

/-- C9 witness: scenario A's signal has score 80 ≤ 100. -/
theorem c9_witness :
    sigA.score ≤ 100 ∧ (WEIGHTS.map Prod.snd).sum = 110 ∧ 100 < (WEIGHTS.map Prod.snd).sum :=
  c9_score_range envA stA "ETH" (some d1A) (some d5A) (some d15A) sigA
    (by rw [scalpA_eval stA (by norm_num [stA, stN, MAX_SIGNALS_DAY])
      (by simp [cooldownActive, stA, stN])
      (by simp [checkCategoryLimit, getCoinCategory, COIN_CATEGORIES])])

/-- C10: the BTC market filter of `scalp_analyze`: no LONG signal is
returned while the global BTC 5-minute RSI is below 45 and no SHORT
signal while it is above 55. -/
theorem c10_btc_rsi_filter (env : Env) (st : ScanState) (symbol : String)
    (tf1 tf5 tf15 : Option TVData) (s : Signal)
    (h : (scalp_analyze env st symbol tf1 tf5 tf15).1 = some s) :
    (s.direction = Dir.long → ¬ env.btcRsi < 45) ∧
    (s.direction = Dir.short → ¬ 55 < env.btcRsi) := by
  have hp : scalp_analyze env st symbol tf1 tf5 tf15 =
      (some s, (scalp_analyze env st symbol tf1 tf5 tf15).2) := by
    rw [← h]
  obtain ⟨d1, d5, cs, ts, dir, score, hd1, hd5, hdaily, hdang, hcool, hcat, hclose, hvotes,
    hdir, hrsiv, htrendv, hfake, hmin, hsig, hst⟩ := scalp_analyze_some_elim hp
  have hsdir : s.direction = dir := by rw [hsig]; rfl
  unfold btcRsiVeto at hrsiv
  constructor
  · intro hd hlt
    rw [hsdir] at hd
    exact hrsiv (Or.inl ⟨hd, hlt⟩)
  · intro hd hlt
    rw [hsdir] at hd
    exact hrsiv (Or.inr ⟨hd, hlt⟩)

/-- C10 witness: scenario A emits a LONG while the BTC RSI is 50 ≥ 45. -/
theorem c10_witness :
    (sigA.direction = Dir.long → ¬ envA.btcRsi < 45) ∧
    (sigA.direction = Dir.short → ¬ 55 < envA.btcRsi) :=
  c10_btc_rsi_filter envA stA "ETH" (some d1A) (some d5A) (some d15A) sigA
    (by rw [scalpA_eval stA (by norm_num [stA, stN, MAX_SIGNALS_DAY])
      (by simp [cooldownActive, stA, stN])
      (by simp [checkCategoryLimit, getCoinCategory, COIN_CATEGORIES])])

/-- C2 (code bug): the daily cap can be exceeded.  `scalp_analyze`
checks `SIGNALS_TODAY >= MAX_SIGNALS_DAY` per symbol, but the counter is
incremented only after the whole scan (`background_scanner`), so a scan
that starts at 14 accepted signals can accept several more: with two
qualifying symbols the day's count reaches 16 > 15. -/
theorem c2_daily_cap_overrun :
    14 < MAX_SIGNALS_DAY ∧
    (backgroundCycle envA (stN 14) [cA, cB]).signalsToday = 16 ∧
    MAX_SIGNALS_DAY < (backgroundCycle envA (stN 14) [cA, cB]).signalsToday := by
  have h := runScanAB 14 (by norm_num [MAX_SIGNALS_DAY])
  have hbc : (backgroundCycle envA (stN 14) [cA, cB]).signalsToday = 16 := by
    unfold backgroundCycle
    rw [h]
    simp [recordSignal, stN, getCoinCategory, COIN_CATEGORIES, MAX_SIGNALS_PER_SCAN]
  exact ⟨by norm_num [MAX_SIGNALS_DAY], hbc, by rw [hbc]; norm_num [MAX_SIGNALS_DAY]⟩

/-- C4 counterexample: a LONG signal is returned although the 5-minute
RSI is 75, because the 1-minute RSI is 0 (falsy in Python), which makes
the source skip the whole RSI block including its extreme-zone veto. -/
theorem c4_counterexample :
    d5C4.rsi = some 75 ∧
    (scalp_analyze envA stA "ETH" (some d1C4) (some d5C4) (some d15A)).1 = some sigC4 ∧
    sigC4.direction = Dir.long ∧ sigC4.rsi = 75 := by
  refine ⟨rfl, ?_, rfl, rfl⟩
  rw [scalpC4_eval stA (by norm_num [stA, stN, MAX_SIGNALS_DAY])
    (by simp [cooldownActive, stA, stN])
    (by simp [checkCategoryLimit, getCoinCategory, COIN_CATEGORIES])]

/-- C4 (amended): provided both the extracted 5-minute and 1-minute RSI
values are truthy (nonzero), a 5-minute RSI above 70 or below 30 makes
`scalp_analyze` return no signal at all — in particular never a LONG. -/
theorem c4_rsi_extreme_veto (env : Env) (st : ScanState) (symbol : String)
    (d1 d5 : TVData) (t15 : Option TVData)
    (h1 : (extractInd d1 d5 t15).rsi ≠ 0) (h2 : (extractInd d1 d5 t15).rsi1m ≠ 0)
    (h3 : 70 < (extractInd d1 d5 t15).rsi ∨ (extractInd d1 d5 t15).rsi < 30) :
    (scalp_analyze env st symbol (some d1) (some d5) t15).1 = none :=
  scalp_none_of_scoring_none (scoringVotes_none_of_votes15 (votes15_none_of_rsi ⟨h1, h2, h3⟩))

/-- C4 witness: with 5m RSI 75 and a truthy 1m RSI (55), no signal. -/
theorem c4_witness :
    (scalp_analyze envA stA "ETH" (some d1A) (some d5C4) (some d15A)).1 = none :=
  c4_rsi_extreme_veto envA stA "ETH" d1A d5C4 (some d15A)
    (by norm_num [extractInd, d5C4, noneTV])
    (by norm_num [extractInd, d1A, noneTV])
    (by norm_num [extractInd, d5C4, noneTV])

/-- C5: when the accumulated bullish and bearish indicator-voter totals
are exactly equal, `scalp_analyze` returns no signal: an aligned
timeframe pair adds weight only to a strictly leading side, the equal
totals (each at most 75) cannot reach the 85 bypass of the 15m block,
so the 15m block vetoes, and the direction decision itself requires a
strict majority. -/
theorem c5_tie_no_signal (env : Env) (st : ScanState) (symbol : String)
    (d1 d5 : TVData) (t15 : Option TVData) (cs5 : List (Option Contrib)) (ts5 : List Tag)
    (h5 : votes15 (extractInd d1 d5 t15) = some (cs5, ts5))
    (htie : sideSum Side.bull cs5 = sideSum Side.bear cs5) :
    (scalp_analyze env st symbol (some d1) (some d5) t15).1 = none :=
  scalp_none_of_scoring_none (scoringVotes_tie_none h5 htie)

/-- C5 witness: an input on which every indicator voter abstains (a 0-0
tie) produces no signal. -/
theorem c5_witness :
    votes15 (extractInd d1C5 d5C5 none) = some (cs5C5, []) ∧
    sideSum Side.bull cs5C5 = sideSum Side.bear cs5C5 ∧
    (scalp_analyze envA stA "ETH" (some d1C5) (some d5C5) none).1 = none :=
  ⟨by rw [extractC5]; exact v15C5, c5sum,
    c5_tie_no_signal envA stA "ETH" d1C5 d5C5 none cs5C5 []
      (by rw [extractC5]; exact v15C5) c5sum⟩

/-- C6 counterexample: `run_scan` sorts by score only.  Two signals with
equal score 80 come back in scan order — the first has 5 agreeing voters
and 5 reason tags, the second 7 agreeing voters and 6 reason tags — so
ties are not broken by confluence count descending. -/
theorem c6_counterexample :
    (runScan envA (stN 0) [cA, cB]).1 = [sigA, sigB] ∧
    sigA.score = sigB.score ∧
    scoringVotes indA Trend.neutral = some (csA, tsA) ∧
    scoringVotes indB Trend.neutral = some (csB, tsB) ∧
    confluence Side.bull csA = 5 ∧
    confluence Side.bull csB = 7 ∧
    sigA.signals.length = 5 ∧
    sigB.signals.length = 6 := by
  refine ⟨?_, rfl, scoringA, scoringB, ?_, ?_, rfl, rfl⟩
  · exact congrArg Prod.fst (runScanAB 0 (by norm_num [MAX_SIGNALS_DAY]))
  · simp [confluence, csA, cs5A, sideCnt]
  · simp [confluence, csB, cs5B, sideCnt]

/-- C6 (amended): the list returned by `run_scan` is sorted by score
descending — with ties kept in scan order by the stable sort, not broken
by confluence — and contains at most `MAX_SIGNALS_PER_SCAN` entries. -/
theorem c6_sorted_truncated (env : Env) (st : ScanState) (coins : List CoinInput) :
    (runScan env st coins).1.length ≤ MAX_SIGNALS_PER_SCAN ∧
      List.Sorted scoreDesc (runScan env st coins).1 := by
  unfold runScan
  dsimp only
  split
  all_goals split
  all_goals first
    | exact ⟨by simp, List.sorted_nil⟩
    | (constructor
       · simp only [List.length_take, MAX_SIGNALS_PER_SCAN]
         omega
       · exact List.Pairwise.sublist (List.take_sublist _ _)
           (List.sorted_insertionSort scoreDesc _))

/-- C8 counterexample: an unavailable 5-minute RSI is extracted as the
placeholder 50 (not an "unavailable" value), and combined with an
available 1-minute RSI of 55 the RSI voter casts a 20-point bullish
vote instead of abstaining. -/
theorem c8_counterexample :
    noneTV.rsi = none ∧
    (extractInd d1A noneTV none).rsi = 50 ∧
    (extractInd d1A noneTV none).rsi1m = 55 ∧
    rsiVote (extractInd d1A noneTV none).rsi (extractInd d1A noneTV none).rsi1m =
      StageRes.ok (some (Side.bull, 20)) (some Tag.rsiUp) := by
  refine ⟨rfl, rfl, rfl, ?_⟩
  norm_num [extractInd, d1A, noneTV, rsiVote, weight]

/-- C8 (amended): unavailable indicators are replaced at extraction by
fixed neutral placeholders (RSI 50 on both timeframes, MACD 0,
Stochastic 50, EMA 0, ATR 0, momentum/AO 0, ADX 20), and a voter all of
whose inputs take their placeholder values abstains — but a placeholder
paired with an available value can still vote (see the
counterexample). -/
theorem c8_defaults_abstain :
    (extractInd noneTV noneTV none).rsi = 50 ∧
    (extractInd noneTV noneTV none).rsi1m = 50 ∧
    (extractInd noneTV noneTV none).macd = 0 ∧
    (extractInd noneTV noneTV none).stochK = 50 ∧
    (extractInd noneTV noneTV none).stochD = 50 ∧
    (extractInd noneTV noneTV none).ema9 = 0 ∧
    (extractInd noneTV noneTV none).atr = 0 ∧
    (extractInd noneTV noneTV none).adx = 20 ∧
    rsiVote 50 50 = StageRes.ok none none ∧
    macdVote 0 0 = (none, none) ∧
    stochVote 50 50 = StageRes.ok none none ∧
    (∀ c : ℚ, emaVote 0 0 c = (none, none)) ∧
    momVote 0 0 = (none, none) := by
  refine ⟨rfl, rfl, rfl, rfl, rfl, rfl, rfl, rfl, ?_, ?_, ?_, ?_, ?_⟩
  · norm_num [rsiVote]
  · norm_num [macdVote]
  · norm_num [stochVote]
  · intro c
    norm_num [emaVote]
  · norm_num [momVote]

/-- C7: the duplicate cooldown.  (i) While an entry for the symbol
younger than `DUPLICATE_COOLDOWN` is recorded, `scalp_analyze` returns
`None` — the source keys the check on the symbol alone, which covers
the claimed symbol+direction suppression; (ii) the lazy pruning of
`run_scan` keeps exactly the unexpired entries; (iii) on acceptance the
entry for the symbol is set to the signal's direction and the current
time. -/
theorem c7_cooldown (env : Env) (st : ScanState) (symbol : String)
    (tf1 tf5 tf15 : Option TVData) :
    (∀ en, st.recent symbol = some en → env.now - en.time < DUPLICATE_COOLDOWN →
      (scalp_analyze env st symbol tf1 tf5 tf15).1 = none) ∧
    (∀ (r : String → Option RecentEntry) (k : String) (en : RecentEntry),
      pruneRecent env.now r k = some en ↔
        r k = some en ∧ env.now - en.time < DUPLICATE_COOLDOWN) ∧
    (∀ s, (scalp_analyze env st symbol tf1 tf5 tf15).1 = some s →
      (scalp_analyze env st symbol tf1 tf5 tf15).2.recent symbol =
        some { dir := s.direction, time := env.now }) := by
  refine ⟨?_, ?_, ?_⟩
  · intro en hen hlt
    have hca : cooldownActive env st symbol = true := by
      unfold cooldownActive
      rw [hen]
      exact decide_eq_true hlt
    unfold scalp_analyze
    rw [hca]
    split_ifs <;> first
      | rfl
      | simp_all
  · intro r k en
    unfold pruneRecent
    rcases hr : r k with _ | e
    · simp
    · dsimp only
      split_ifs with hlt
      · constructor
        · intro he
          exact ⟨he, by cases he; exact hlt⟩
        · intro he
          exact he.1
      · constructor
        · intro he
          cases he
        · intro he
          cases he.1
          exact absurd he.2 hlt
  · intro s hs
    have hp : scalp_analyze env st symbol tf1 tf5 tf15 =
        (some s, (scalp_analyze env st symbol tf1 tf5 tf15).2) := by
      rw [← hs]
    obtain ⟨d1, d5, cs, ts, dir, score, hd1, hd5, hdaily, hdang, hcool, hcat, hclose, hvotes,
      hdir, hrsiv, htrendv, hfake, hmin, hsig, hst⟩ := scalp_analyze_some_elim hp
    rw [hst]
    unfold recordSignal
    dsimp only
    rw [if_pos rfl, hsig]
    rfl

/-- C7 witness: with a 100-second-old entry recorded for the symbol (the
cooldown being 300 seconds), analysis is suppressed; the pruning
equivalence is instantiated on that same entry. -/
theorem c7_witness :
    (scalp_analyze envA
        { signalsToday := 0,
          recent := fun k => if k = "ETH" then some (RecentEntry.mk Dir.long 900) else none,
          catCount := fun _ => 0 } "ETH" (some d1A) (some d5A) (some d15A)).1 = none ∧
    (pruneRecent envA.now
        (fun k => if k = "ETH" then some (RecentEntry.mk Dir.long 900) else none) "ETH" =
          some (RecentEntry.mk Dir.long 900) ↔
      (if "ETH" = "ETH" then some (RecentEntry.mk Dir.long 900) else none) =
          some (RecentEntry.mk Dir.long 900) ∧
        envA.now - (RecentEntry.mk Dir.long 900).time < DUPLICATE_COOLDOWN) :=
  ⟨(c7_cooldown envA
      { signalsToday := 0,
        recent := fun k => if k = "ETH" then some (RecentEntry.mk Dir.long 900) else none,
        catCount := fun _ => 0 } "ETH" (some d1A) (some d5A) (some d15A)).1
      (RecentEntry.mk Dir.long 900) (by simp) (by norm_num [envA, DUPLICATE_COOLDOWN]),
   (c7_cooldown envA stA "ETH" (some d1A) (some d5A) (some d15A)).2.1
      (fun k => if k = "ETH" then some (RecentEntry.mk Dir.long 900) else none) "ETH"
      (RecentEntry.mk Dir.long 900)⟩
